import Mathlib

/-!
# Verification of the Black Magic Probe ADIv5 / SAM D core

A shallow embedding, in Lean 4, of the parts of `src/target/adiv5.c` and
`src/target/samd.c` that the specification's testable claims are about:

* the access-width (alignment) selection for AP memory transfers,
* the AP memory-transfer loops (`firmware_mem_read`, `firmware_mem_write_sized`)
  together with their 10-bit TAR-boundary reprogramming discipline,
* the `cortexm_initial_halt` DHCSR sampling loop,
* the AP enumeration loop and the ROM-table walker of `adiv5_dp_init`,
* the SELECT bank discipline of `adiv5_dp_init` (TARGETID on bank 2),
* the SAM D `samd_mass_erase` DSU poll loop and `samd_set_flashlock`.

Machine integers are modelled as `Nat` with explicit `% 2^32` wherever the C
code relies on 32-bit wrap-around.  Hardware reads are modelled by oracle
functions (either address-indexed, for target memory, or sequence-indexed, for
status polls), and unbounded C loops are modelled with an explicit fuel
argument: running out of fuel yields a distinguished "still looping" result,
never a fabricated exit.

Constants that live in headers not present in the source snapshot
(`adiv5.h`, `cortexm.h`, `jep106.h`) are modelled from the spec and carry a
`Modelled from the spec:` doc comment; everything else is transcribed from the
two C files.
-/

namespace BlackMagic

/-! ## Constants transcribed from `src/target/adiv5.c` -/

/-- `CID_PREAMBLE` (adiv5.c line 67). -/
def CID_PREAMBLE : Nat := 0xB105000D

/-- `CID_CLASS_MASK` (adiv5.c line 68). -/
def CID_CLASS_MASK : Nat := 0x0000F000

/-- `CID_CLASS_SHIFT` (adiv5.c line 69). -/
def CID_CLASS_SHIFT : Nat := 12

/-- `cidc_romtab = 0x1` from `enum cid_class` (adiv5.c line 76). -/
def cidc_romtab : Nat := 0x1

/-- `cidc_dc = 0x9` from `enum cid_class` (adiv5.c line 78). -/
def cidc_dc : Nat := 0x9

/-- `cidc_gipc = 0xE` from `enum cid_class` (adiv5.c line 83). -/
def cidc_gipc : Nat := 0xE

/-- `cidc_unknown = 0x10` from `enum cid_class` (adiv5.c line 85). -/
def cidc_unknown : Nat := 0x10

/-- `SAMX5X_DSU_CTRLSTAT` (adiv5.c line 275). -/
def SAMX5X_DSU_CTRLSTAT : Nat := 0x41002100

/-- `SAMX5X_STATUSB_PROT` (adiv5.c line 276). -/
def SAMX5X_STATUSB_PROT : Nat := 1 <<< 16

/-- `PIDR_JEP106_CONT_OFFSET` (adiv5.c line 114). -/
def PIDR_JEP106_CONT_OFFSET : Nat := 32

/-- `PIDR_JEP106_CONT_MASK` (adiv5.c line 115). -/
def PIDR_JEP106_CONT_MASK : Nat := 0xF <<< PIDR_JEP106_CONT_OFFSET

/-- `PIDR_JEP106_USED` (adiv5.c lines 118-119). -/
def PIDR_JEP106_USED : Nat := 1 <<< 19

/-- `PIDR_JEP106_CODE_OFFSET` (adiv5.c line 120). -/
def PIDR_JEP106_CODE_OFFSET : Nat := 12

/-- `PIDR_JEP106_CODE_MASK` (adiv5.c line 121). -/
def PIDR_JEP106_CODE_MASK : Nat := 0x7F <<< PIDR_JEP106_CODE_OFFSET

/-- `PIDR_PN_MASK` (adiv5.c line 122). -/
def PIDR_PN_MASK : Nat := 0xFFF

/-- `DEVTYPE_OFFSET` (adiv5.c line 124). -/
def DEVTYPE_OFFSET : Nat := 0xFCC

/-- `DEVARCH_OFFSET` (adiv5.c line 125). -/
def DEVARCH_OFFSET : Nat := 0xFBC

/-- `DEVTYPE_MASK` (adiv5.c line 127). -/
def DEVTYPE_MASK : Nat := 0x000000FF

/-- `DEVARCH_PRESENT` (adiv5.c line 128). -/
def DEVARCH_PRESENT : Nat := 1 <<< 20

/-- `DEVARCH_ARCHID_MASK` (adiv5.c line 129). -/
def DEVARCH_ARCHID_MASK : Nat := 0x0000FFFF

/-- `CIDR0_OFFSET` (adiv5.c line 48). -/
def CIDR0_OFFSET : Nat := 0xFF0

/-- `PIDR0_OFFSET` (adiv5.c line 105). -/
def PIDR0_OFFSET : Nat := 0xFE0

/-- `PIDR4_OFFSET` (adiv5.c line 109). -/
def PIDR4_OFFSET : Nat := 0xFD0

/-- `ARM_AP_TYPE_AHB` (adiv5.c line 42). -/
def ARM_AP_TYPE_AHB : Nat := 1

/-! ## Constants transcribed from `src/target/samd.c` -/

/-- `SAMD_NVMC_CTRLA` (samd.c lines 75-76). -/
def SAMD_NVMC_CTRLA : Nat := 0x41004000 + 0x00

/-- `SAMD_NVMC_INTFLAG` (samd.c lines 75, 79). -/
def SAMD_NVMC_INTFLAG : Nat := 0x41004000 + 0x14

/-- `SAMD_NVMC_ADDRESS` (samd.c lines 75, 81). -/
def SAMD_NVMC_ADDRESS : Nat := 0x41004000 + 0x1C

/-- `SAMD_CTRLA_CMD_KEY` (samd.c line 84). -/
def SAMD_CTRLA_CMD_KEY : Nat := 0xA500

/-- `SAMD_CTRLA_CMD_ERASEAUXROW` (samd.c line 87). -/
def SAMD_CTRLA_CMD_ERASEAUXROW : Nat := 0x0005

/-- `SAMD_CTRLA_CMD_WRITEAUXPAGE` (samd.c line 88). -/
def SAMD_CTRLA_CMD_WRITEAUXPAGE : Nat := 0x0006

/-- `SAMD_NVM_USER_ROW_LOW` (samd.c line 99). -/
def SAMD_NVM_USER_ROW_LOW : Nat := 0x00804000

/-- `SAMD_NVM_USER_ROW_HIGH` (samd.c line 100). -/
def SAMD_NVM_USER_ROW_HIGH : Nat := 0x00804004

/-- `SAMD_NVMC_READY` (samd.c line 96). -/
def SAMD_NVMC_READY : Nat := 1 <<< 0

/-- `SAMD_DSU_CTRLSTAT` (samd.c lines 108-110). -/
def SAMD_DSU_CTRLSTAT : Nat := 0x41002000 + 0x100

/-- `SAMD_CTRL_CHIP_ERASE` (samd.c line 118). -/
def SAMD_CTRL_CHIP_ERASE : Nat := 1 <<< 4

/-- `SAMD_STATUSA_PERR` (samd.c line 121). -/
def SAMD_STATUSA_PERR : Nat := 1 <<< 12

/-- `SAMD_STATUSA_FAIL` (samd.c line 122). -/
def SAMD_STATUSA_FAIL : Nat := 1 <<< 11

/-- `SAMD_STATUSA_DONE` (samd.c line 125). -/
def SAMD_STATUSA_DONE : Nat := 1 <<< 8

/-! ## Constants modelled from the spec (headers absent from the snapshot) -/

/-- Modelled from the spec: `adiv5.h` is not in the snapshot.  DP register
addresses used by the embedded transcripts; the ADIv5 DP register file puts
DPIDR at 0x0, CTRL/STAT at 0x4, SELECT at 0x8, RDBUFF at 0xC and (bank 2)
TARGETID at 0x4.  The values only serve as labels in transcripts. -/
def ADIV5_DP_DPIDR : Nat := 0x0

/-- Modelled from the spec: `adiv5.h` absent; DP CTRL/STAT address. -/
def ADIV5_DP_CTRLSTAT : Nat := 0x4

/-- Modelled from the spec: `adiv5.h` absent; DP SELECT address. -/
def ADIV5_DP_SELECT : Nat := 0x8

/-- Modelled from the spec: `adiv5.h` absent; DP RDBUFF address. -/
def ADIV5_DP_RDBUFF : Nat := 0xC

/-- Modelled from the spec: `adiv5.h` absent; DP TARGETID address (bank 2). -/
def ADIV5_DP_TARGETID : Nat := 0x24

/-- Modelled from the spec: `adiv5.h` absent; flag distinguishing AP register
addresses from DP register addresses in `adiv5_dp_low_access` and the
`adiv5_dp_read/write` dispatch. -/
def ADIV5_APnDP : Nat := 0x100

/-- Modelled from the spec: `adiv5.h` absent; AP CSW register address. -/
def ADIV5_AP_CSW : Nat := ADIV5_APnDP ||| 0x00

/-- Modelled from the spec: `adiv5.h` absent; AP TAR register address. -/
def ADIV5_AP_TAR : Nat := ADIV5_APnDP ||| 0x04

/-- Modelled from the spec: `adiv5.h` absent; AP DRW register address. -/
def ADIV5_AP_DRW : Nat := ADIV5_APnDP ||| 0x0C

/-- Modelled from the spec: `adiv5.h` absent; AP IDR register address. -/
def ADIV5_AP_IDR : Nat := ADIV5_APnDP ||| 0xFC

/-- Modelled from the spec: `adiv5.h` absent; AP BASE register address. -/
def ADIV5_AP_BASE : Nat := ADIV5_APnDP ||| 0xF8

/-- Modelled from the spec: `adiv5.h` absent; CSW transfer-in-progress flag. -/
def ADIV5_AP_CSW_TRINPROG : Nat := 1 <<< 7

/-- Modelled from the spec: `adiv5.h` absent; CSW size-field mask. -/
def ADIV5_AP_CSW_SIZE_MASK : Nat := 0x7

/-- Modelled from the spec: `adiv5.h` absent; CSW address-increment mask. -/
def ADIV5_AP_CSW_ADDRINC_MASK : Nat := 0x30

/-- Modelled from the spec: `adiv5.h` absent; CSW single-increment setting. -/
def ADIV5_AP_CSW_ADDRINC_SINGLE : Nat := 0x10

/-- Modelled from the spec: `adiv5.h` absent; CSW byte-size setting. -/
def ADIV5_AP_CSW_SIZE_BYTE : Nat := 0x0

/-- Modelled from the spec: `adiv5.h` absent; CSW half-word-size setting. -/
def ADIV5_AP_CSW_SIZE_HALFWORD : Nat := 0x1

/-- Modelled from the spec: `adiv5.h` absent; CSW word-size setting. -/
def ADIV5_AP_CSW_SIZE_WORD : Nat := 0x2

/-- Modelled from the spec: `adiv5.h` absent; ROM-table entry PRESENT bit
(spec §4.3: "for each present entry recurse"). -/
def ADIV5_ROM_ROMENTRY_PRESENT : Nat := 1

/-- Modelled from the spec: `adiv5.h` absent; ROM-table entry offset mask,
spec §4.3 step 6: recurse into `base + (entry & ~0xFFF)` (32-bit complement). -/
def ADIV5_ROM_ROMENTRY_OFFSET : Nat := 0xFFFFF000

/-- Modelled from the spec: `adiv5.h` absent; the CTRL/STAT TRNCNT field unit
(spec glossary: "Transaction Count field of DP CTRL/STAT"); bit 12 of
CTRL/STAT starts the field, the code multiplies the count onto it. -/
def ADIV5_DP_CTRLSTAT_TRNCNT : Nat := 1 <<< 12

/-- Modelled from the spec: `cortexm.h` absent; DHCSR address. -/
def CORTEXM_DHCSR : Nat := 0xE000EDF0

/-- Modelled from the spec: `cortexm.h` absent; DEMCR address. -/
def CORTEXM_DEMCR : Nat := 0xE000EDFC

/-- Modelled from the spec: `cortexm.h` absent; DHCSR debug key (§6 magic
constants name it; the architectural value is `0xA05F << 16`). -/
def CORTEXM_DHCSR_DBGKEY : Nat := 0xA05F <<< 16

/-- Modelled from the spec: `cortexm.h` absent; DHCSR C_DEBUGEN (bit 0). -/
def CORTEXM_DHCSR_C_DEBUGEN : Nat := 1 <<< 0

/-- Modelled from the spec: `cortexm.h` absent; DHCSR C_HALT (bit 1). -/
def CORTEXM_DHCSR_C_HALT : Nat := 1 <<< 1

/-- Modelled from the spec: `cortexm.h` absent; DHCSR S_HALT (bit 17). -/
def CORTEXM_DHCSR_S_HALT : Nat := 1 <<< 17

/-- Modelled from the spec: `cortexm.h` absent; DHCSR S_RESET_ST (bit 25). -/
def CORTEXM_DHCSR_S_RESET_ST : Nat := 1 <<< 25

/-- Modelled from the spec: `jep106.h` absent; JEP-106 code for Atmel. -/
def JEP106_MANUFACTURER_ATMEL : Nat := 0x01F

/-- Modelled from the spec: `jep106.h` absent; JEP-106 code for ARM. -/
def JEP106_MANUFACTURER_ARM : Nat := 0x43B

/-- Modelled from the spec: `jep106.h` absent; JEP-106 code for Raspberry Pi. -/
def JEP106_MANUFACTURER_RASPBERRY : Nat := 0x913

/-- Modelled from the spec: `jep106.h` absent; non-compliant STM32WX code
patched by the walker's designer errata. -/
def JEP106_MANUFACTURER_ERRATA_STM32WX : Nat := 0x41F

/-- Modelled from the spec: `jep106.h` absent; second non-compliant code
patched by the walker's designer errata. -/
def JEP106_MANUFACTURER_ERRATA_CS : Nat := 0x555

/-- Modelled from the spec: `jep106.h` absent; canonical STM code the errata
rewrite to. -/
def JEP106_MANUFACTURER_STM : Nat := 0x020

/-- Modelled from the spec: `jep106.h` absent; flag marking legacy ASCII
designer codes. -/
def ASCII_CODE_FLAG : Nat := 1 <<< 15

/-! ## Access widths (`enum align`, `ALIGNOF`, `MIN`)

`enum align` comes from a header absent from the snapshot; its values are
forced by the C code, which computes `1 << align` for the byte step and uses
`MIN` on the enumerators: byte = 0, half-word = 1, word = 2, dword = 3. -/

/-- `ALIGN_BYTE` of `enum align`. -/
def ALIGN_BYTE : Nat := 0

/-- `ALIGN_HALFWORD` of `enum align`. -/
def ALIGN_HALFWORD : Nat := 1

/-- `ALIGN_WORD` of `enum align`. -/
def ALIGN_WORD : Nat := 2

/-- The C `MIN(a, b)` macro on `enum align` values. -/
def MIN (a b : Nat) : Nat := if a < b then a else b

/-- `ALIGNOF` (adiv5.c line 897):
`(((x)&3) == 0 ? ALIGN_WORD : (((x)&1) == 0 ? ALIGN_HALFWORD : ALIGN_BYTE))`. -/
def ALIGNOF (x : Nat) : Nat :=
  if x &&& 3 = 0 then ALIGN_WORD else if x &&& 1 = 0 then ALIGN_HALFWORD else ALIGN_BYTE

/-- The access width chosen for an AP memory transfer: `firmware_mem_read`
(adiv5.c line 942) and `adiv5_mem_write` (line 1017) both compute
`MIN(ALIGNOF(addr), ALIGNOF(len))`. -/
def mem_access_align (addr len : Nat) : Nat := MIN (ALIGNOF addr) (ALIGNOF len)

/-! ## DP-level operation transcripts

Every AP/DP primitive of the engine is recorded as a `DpOp`.  Read values are
supplied by oracles; the op list records which transactions were issued, in
order, which is exactly what the transfer-loop and SELECT-discipline claims
quantify over. -/

/-- One primitive DP transaction (or platform side effect), as issued by the
engine in `adiv5.c`. -/
inductive DpOp where
  /-- `adiv5_dp_read(dp, addr)` -/
  | dpRead (addr : Nat)
  /-- `adiv5_dp_write(dp, addr, v)` -/
  | dpWrite (addr v : Nat)
  /-- `adiv5_dp_low_access(dp, ADIV5_LOW_READ, addr, 0)` -/
  | lowRead (addr : Nat)
  /-- `adiv5_dp_low_access(dp, ADIV5_LOW_WRITE, addr, v)` -/
  | lowWrite (addr v : Nat)
  /-- `adiv5_dp_abort(dp, v)` -/
  | abortWrite (v : Nat)
  /-- `platform_delay(ms)` -/
  | delayMs (ms : Nat)
  /-- `platform_nrst_set_val(assert)` -/
  | nrstSet (assert : Bool)
  deriving Repr, DecidableEq

/-- The slice of `ADIv5_AP_t` state the embedded functions use. -/
structure ADIv5_AP where
  apsel : Nat
  idr : Nat
  base : Nat
  csw : Nat
  deriving Repr, DecidableEq

/-- `firmware_ap_write` (adiv5.c lines 1001-1005): a SELECT write followed by
the banked register write. -/
def firmware_ap_write (ap : ADIv5_AP) (addr value : Nat) : List DpOp :=
  [DpOp.dpWrite ADIV5_DP_SELECT ((ap.apsel <<< 24) ||| (addr &&& 0xF0)),
   DpOp.dpWrite addr value]

/-- `firmware_ap_read` (adiv5.c lines 1007-1013): a SELECT write followed by
the banked register read. -/
def firmware_ap_read (ap : ADIv5_AP) (addr : Nat) : List DpOp :=
  [DpOp.dpWrite ADIV5_DP_SELECT ((ap.apsel <<< 24) ||| (addr &&& 0xF0)),
   DpOp.dpRead addr]

/-- The CSW size bits the `switch (align)` of `ap_mem_access_setup`
(adiv5.c lines 904-915) ORs in. -/
def csw_size_bits (align : Nat) : Nat :=
  if align = ALIGN_BYTE then ADIV5_AP_CSW_SIZE_BYTE
  else if align = ALIGN_HALFWORD then ADIV5_AP_CSW_SIZE_HALFWORD
  else ADIV5_AP_CSW_SIZE_WORD

/-- `ap_mem_access_setup` (adiv5.c lines 900-918): program CSW for the given
width with single auto-increment, then program TAR with the start address. -/
def ap_mem_access_setup (ap : ADIv5_AP) (addr align : Nat) : List DpOp :=
  let csw := ap.csw ||| ADIV5_AP_CSW_ADDRINC_SINGLE ||| csw_size_bits align
  firmware_ap_write ap ADIV5_AP_CSW csw ++ [DpOp.lowWrite ADIV5_AP_TAR addr]

/-- `extract` (adiv5.c lines 921-936): the bytes written at the destination
for one transferred unit, given the 32-bit data-lane value `v` and the source
address `src` (little-endian store of the selected lane). -/
def extract (src v align : Nat) : List Nat :=
  if align = ALIGN_BYTE then [(v >>> ((src &&& 0x3) <<< 3)) &&& 0xFF]
  else if align = ALIGN_HALFWORD then
    let h := (v >>> ((src &&& 0x2) <<< 3)) &&& 0xFFFF
    [h &&& 0xFF, (h >>> 8) &&& 0xFF]
  else [v &&& 0xFF, (v >>> 8) &&& 0xFF, (v >>> 16) &&& 0xFF, (v >>> 24) &&& 0xFF]

/-- Result of the `firmware_mem_read` main loop: the ops issued, the bytes
stored to the destination buffer, the final `src` cursor and the index of the
next read value to consume. -/
structure MemRdState where
  ops : List DpOp
  bytes : List Nat
  src : Nat
  k : Nat
  deriving Repr, DecidableEq

/-- The `while (--len)` loop of `firmware_mem_read` (adiv5.c lines 950-961):
read DRW, extract into the destination, advance `src`, and on a 10-bit address
overflow re-program TAR and re-prime the read pipeline with one extra DRW
read.  `vals k` is the value returned by the `k`-th low-access read. -/
def firmware_mem_read_loop (vals : Nat → Nat) (align : Nat) :
    Nat → Nat → Nat → Nat → MemRdState
  | 0, _src, _osrc, k => { ops := [], bytes := [], src := _src, k := k }
  | 1, _src, _osrc, k => { ops := [], bytes := [], src := _src, k := k }
  | n + 2, src, osrc, k =>
    let tmp := vals k
    let bs := extract src tmp align
    let src2 := (src + (1 <<< align)) % 2 ^ 32
    if (src2 ^^^ osrc) &&& 0xfffffc00 ≠ 0 then
      let r := firmware_mem_read_loop vals align (n + 1) src2 src2 (k + 2)
      { ops := DpOp.lowRead ADIV5_AP_DRW :: DpOp.lowWrite ADIV5_AP_TAR src2 ::
          DpOp.lowRead ADIV5_AP_DRW :: r.ops,
        bytes := bs ++ r.bytes, src := r.src, k := r.k }
    else
      let r := firmware_mem_read_loop vals align (n + 1) src2 osrc (k + 1)
      { ops := DpOp.lowRead ADIV5_AP_DRW :: r.ops,
        bytes := bs ++ r.bytes, src := r.src, k := r.k }

/-- `firmware_mem_read` (adiv5.c lines 938-964).  Returns the ops issued and
the bytes written into `dest` (an empty byte list means the buffer was left
untouched).  `vals k` is the value returned by the `k`-th low-access read. -/
def firmware_mem_read (vals : Nat → Nat) (ap : ADIv5_AP) (src len : Nat) :
    List DpOp × List Nat :=
  let osrc := src
  let align := mem_access_align src len
  if len = 0 then ([], [])
  else
    let len2 := len >>> align
    let r := firmware_mem_read_loop vals align len2 src osrc 1
    (ap_mem_access_setup ap src align ++ [DpOp.lowRead ADIV5_AP_DRW] ++ r.ops ++
       [DpOp.lowRead ADIV5_DP_RDBUFF],
     r.bytes ++ extract r.src (vals r.k) align)

/-- The data-lane packing of one source unit in `firmware_mem_write_sized`
(adiv5.c lines 973-986); `srcB j` is byte `j` of the source buffer, assembled
little-endian for the half-word and word loads. -/
def mem_write_lane (srcB : Nat → Nat) (j dest align : Nat) : Nat :=
  if align = ALIGN_BYTE then srcB j <<< ((dest &&& 3) <<< 3)
  else if align = ALIGN_HALFWORD then
    (srcB j + (srcB (j + 1) <<< 8)) <<< ((dest &&& 2) <<< 3)
  else srcB j + (srcB (j + 1) <<< 8) + (srcB (j + 2) <<< 16) + (srcB (j + 3) <<< 24)

/-- The `while (len--)` loop of `firmware_mem_write_sized` (adiv5.c lines
972-996): pack the lane, advance the cursors, post the DRW write, and on a
10-bit address overflow re-program TAR. -/
def firmware_mem_write_loop (srcB : Nat → Nat) (align : Nat) :
    Nat → Nat → Nat → Nat → List DpOp
  | 0, _j, _dest, _odest => []
  | n + 1, j, dest, odest =>
    let tmp := mem_write_lane srcB j dest align
    let dest2 := (dest + (1 <<< align)) % 2 ^ 32
    if (dest2 ^^^ odest) &&& 0xfffffc00 ≠ 0 then
      DpOp.lowWrite ADIV5_AP_DRW tmp :: DpOp.lowWrite ADIV5_AP_TAR dest2 ::
        firmware_mem_write_loop srcB align n (j + (1 <<< align)) dest2 dest2
    else
      DpOp.lowWrite ADIV5_AP_DRW tmp ::
        firmware_mem_write_loop srcB align n (j + (1 <<< align)) dest2 odest

/-- `firmware_mem_write_sized` (adiv5.c lines 966-999): CSW/TAR setup, the
write loop, and the final RDBUFF barrier read. -/
def firmware_mem_write_sized (srcB : Nat → Nat) (ap : ADIv5_AP)
    (dest len align : Nat) : List DpOp :=
  let odest := dest
  let len2 := len >>> align
  ap_mem_access_setup ap dest align ++
    firmware_mem_write_loop srcB align len2 0 dest odest ++
    [DpOp.dpRead ADIV5_DP_RDBUFF]

/-- `adiv5_mem_write` (adiv5.c lines 1015-1019): pick the width with
`MIN(ALIGNOF(dest), ALIGNOF(len))` and delegate to the sized write. -/
def adiv5_mem_write (srcB : Nat → Nat) (ap : ADIv5_AP) (dest len : Nat) :
    List DpOp :=
  firmware_mem_write_sized srcB ap dest len (mem_access_align dest len)

/-! ## TAR-boundary discipline checkers (written from the spec's words)

The checkers walk a transfer transcript tracking the last TAR-programmed
address and the running transfer address; they demand that TAR be
re-programmed exactly at 10-bit boundary crossings (`(new ^ old) & 0xFFFFFC00`
non-zero), with one extra pipeline-priming DRW read on read transfers, and
nowhere else. -/

/-- Spec-side checker for the read-loop transcript, starting after the
CSW/TAR setup and the initial posted DRW read.  `last` is the last address
programmed into TAR, `addr` the current transfer address, `w` the width in
bytes. -/
def tar_read_check (w : Nat) : Nat → Nat → List DpOp → Bool
  | _, _, [] => false
  | last, addr, op :: rest =>
    match op with
    | DpOp.lowRead a =>
      if a = ADIV5_DP_RDBUFF then rest.isEmpty
      else if a = ADIV5_AP_DRW then
        let new := (addr + w) % 2 ^ 32
        if (new ^^^ last) &&& 0xfffffc00 ≠ 0 then
          match rest with
          | DpOp.lowWrite t a2 :: rest1 =>
            match rest1 with
            | DpOp.lowRead d :: rest2 =>
              decide (t = ADIV5_AP_TAR) && decide (a2 = new) &&
                decide (d = ADIV5_AP_DRW) && tar_read_check w new new rest2
            | _ => false
          | _ => false
        else tar_read_check w last new rest
      else false
    | _ => false

/-- Spec-side checker for the write-loop transcript, starting after the
CSW/TAR setup: each posted DRW write advances the address; on a 10-bit
boundary crossing TAR must be re-programmed with the new address and at no
other point; the transcript ends with the RDBUFF completion barrier. -/
def tar_write_check (w : Nat) : Nat → Nat → List DpOp → Bool
  | _, _, [] => false
  | last, addr, op :: rest =>
    match op with
    | DpOp.dpRead a => decide (a = ADIV5_DP_RDBUFF) && rest.isEmpty
    | DpOp.lowWrite a _v =>
      if a = ADIV5_AP_DRW then
        let new := (addr + w) % 2 ^ 32
        if (new ^^^ last) &&& 0xfffffc00 ≠ 0 then
          match rest with
          | DpOp.lowWrite t a2 :: rest1 =>
            decide (t = ADIV5_AP_TAR) && decide (a2 = new) &&
              tar_write_check w new new rest1
          | _ => false
        else tar_write_check w last new rest
      else false
    | _ => false

/-- The read loop satisfies the TAR discipline: induction along the loop,
tracking that the checker's `(last, addr)` state coincides with the loop's
`(osrc, src)` state. -/
theorem tar_read_check_mem_read_loop (vals : Nat → Nat) (align : Nat) :
    ∀ n src osrc k,
      tar_read_check (1 <<< align) osrc src
        ((firmware_mem_read_loop vals align n src osrc k).ops ++
          [DpOp.lowRead ADIV5_DP_RDBUFF]) = true := by
  intro n
  induction n using Nat.strong_induction_on with
  | _ n ih =>
    match n with
    | 0 =>
      intro src osrc k
      simp [firmware_mem_read_loop, tar_read_check]
    | 1 =>
      intro src osrc k
      simp [firmware_mem_read_loop, tar_read_check]
    | n + 2 =>
      intro src osrc k
      have hne : ¬(ADIV5_AP_DRW = ADIV5_DP_RDBUFF) := by decide
      by_cases hc :
          (((src + (1 <<< align)) % 2 ^ 32) ^^^ osrc) &&& 0xfffffc00 ≠ 0
      · simp only [firmware_mem_read_loop, if_pos hc, List.cons_append]
        simp only [tar_read_check, if_neg hne, if_pos rfl, if_pos hc]
        simp [ih (n + 1) (by omega)]
      · simp only [firmware_mem_read_loop, if_neg hc, List.cons_append]
        simp only [tar_read_check, if_neg hne, if_pos rfl, if_neg hc]
        exact ih (n + 1) (by omega) _ _ _

/-- The write loop satisfies the TAR discipline. -/
theorem tar_write_check_mem_write_loop (srcB : Nat → Nat) (align : Nat) :
    ∀ n j dest odest,
      tar_write_check (1 <<< align) odest dest
        (firmware_mem_write_loop srcB align n j dest odest ++
          [DpOp.dpRead ADIV5_DP_RDBUFF]) = true := by
  intro n
  induction n with
  | zero =>
    intro j dest odest
    simp [firmware_mem_write_loop, tar_write_check]
  | succ n ih =>
    intro j dest odest
    by_cases hc :
        (((dest + (1 <<< align)) % 2 ^ 32) ^^^ odest) &&& 0xfffffc00 ≠ 0
    · simp only [firmware_mem_write_loop, if_pos hc, List.cons_append]
      simp only [tar_write_check, if_pos rfl, if_pos hc]
      simp [ih]
    · simp only [firmware_mem_write_loop, if_neg hc, List.cons_append]
      simp only [tar_write_check, if_pos rfl, if_neg hc]
      exact ih _ _ _

/-- C4: for every AP memory transfer (`firmware_mem_read` and
`adiv5_mem_write`) the access width is the minimum of the alignments of
address and length over {byte, half-word, word}: half-word exactly when both
are 2-aligned but not both 4-aligned, word exactly when both are 4-aligned,
byte otherwise; and `adiv5_mem_write` passes exactly this width on. -/
theorem C4_access_width_minimum (srcB : Nat → Nat) (ap : ADIv5_AP)
    (addr len : Nat) :
    (mem_access_align addr len = ALIGN_WORD ↔ addr % 4 = 0 ∧ len % 4 = 0) ∧
    (mem_access_align addr len = ALIGN_HALFWORD ↔
      (addr % 2 = 0 ∧ len % 2 = 0) ∧ ¬(addr % 4 = 0 ∧ len % 4 = 0)) ∧
    (mem_access_align addr len = ALIGN_BYTE ↔ ¬(addr % 2 = 0 ∧ len % 2 = 0)) ∧
    adiv5_mem_write srcB ap addr len =
      firmware_mem_write_sized srcB ap addr len (mem_access_align addr len) := by
  have h3 : ∀ x : Nat, x &&& 3 = x % 4 := fun x => by
    have h := Nat.and_pow_two_sub_one_eq_mod x 2
    norm_num at h
    exact h
  refine ⟨?_, ?_, ?_, rfl⟩ <;>
    · simp only [mem_access_align, MIN, ALIGNOF, ALIGN_BYTE, ALIGN_HALFWORD,
        ALIGN_WORD, h3, Nat.and_one_is_mod]
      split_ifs <;> (try omega) <;> simp only [false_iff, true_iff] <;> omega

/-- C5: in both AP memory-transfer loops, after each word the new address is
tested against the last TAR-programmed address with
`(new ^ old) & 0xFFFFFC00`; exactly when that is non-zero, TAR is
re-programmed with the new address (plus, on reads, one extra pipeline
priming DRW read), and TAR is re-programmed at no other point inside the
loop.  The first four ops of a read are the CSW/TAR setup plus the posted
DRW read; the rest passes the discipline checker. -/
theorem C5_tar_reprogram_exactly_at_crossings (vals srcB : Nat → Nat)
    (ap : ADIv5_AP) (src len dest wlen walign : Nat) (h : len ≠ 0) :
    ((firmware_mem_read vals ap src len).1.take 4 =
        ap_mem_access_setup ap src (mem_access_align src len) ++
          [DpOp.lowRead ADIV5_AP_DRW] ∧
      tar_read_check (1 <<< mem_access_align src len) src src
        ((firmware_mem_read vals ap src len).1.drop 4) = true) ∧
    tar_write_check (1 <<< walign) dest dest
      ((firmware_mem_write_sized srcB ap dest wlen walign).drop 3) = true := by
  refine ⟨⟨?_, ?_⟩, ?_⟩
  · simp [firmware_mem_read, if_neg h, ap_mem_access_setup, firmware_ap_write]
  · simp only [firmware_mem_read, if_neg h]
    simp [ap_mem_access_setup, firmware_ap_write]
    exact tar_read_check_mem_read_loop vals _ _ _ _ _
  · simp only [firmware_mem_write_sized]
    simp [ap_mem_access_setup, firmware_ap_write]
    exact tar_write_check_mem_write_loop srcB walign _ _ _ _

/-- Witness for C5: a word-wide read of 16 bytes at `0x3F8` (which crosses the
1 KiB TAR window at `0x400`) and a word-wide write of 8 bytes at `0x3FC` both
pass the TAR-boundary checkers. -/
theorem C5_tar_reprogram_witness :
    (16 : Nat) ≠ 0 ∧
    ((firmware_mem_read (fun _ => 0) ⟨0, 0, 0, 0⟩ 0x3F8 16).1.take 4 =
        ap_mem_access_setup ⟨0, 0, 0, 0⟩ 0x3F8 (mem_access_align 0x3F8 16) ++
          [DpOp.lowRead ADIV5_AP_DRW] ∧
      tar_read_check (1 <<< mem_access_align 0x3F8 16) 0x3F8 0x3F8
        ((firmware_mem_read (fun _ => 0) ⟨0, 0, 0, 0⟩ 0x3F8 16).1.drop 4) =
        true) ∧
    tar_write_check (1 <<< 2) 0x3FC 0x3FC
      ((firmware_mem_write_sized (fun _ => 0) ⟨0, 0, 0, 0⟩ 0x3FC 8 2).drop 3) =
      true :=
  ⟨by decide,
   C5_tar_reprogram_exactly_at_crossings (fun _ => 0) (fun _ => 0)
     ⟨0, 0, 0, 0⟩ 0x3F8 16 0x3FC 8 2 (by decide)⟩

/-- C10: `firmware_mem_read` with length zero issues no DP or AP transaction
and stores nothing into the destination buffer (hence CSW/TAR and the buffer
are left unchanged). -/
theorem C10_mem_read_zero_length (vals : Nat → Nat) (ap : ADIv5_AP)
    (src : Nat) :
    (firmware_mem_read vals ap src 0).1 = [] ∧
    (firmware_mem_read vals ap src 0).2 = [] :=
  ⟨rfl, rfl⟩

/-! ## SAM D mass erase (`samd_mass_erase`, samd.c lines 646-679) -/

/-- A target-memory transaction issued over `target_mem_read32/write32`. -/
inductive TgtOp where
  | read32 (addr : Nat)
  | write32 (addr v : Nat)
  deriving Repr, DecidableEq

/-- Oracles for one `samd_mass_erase` run: `status n` is the value of the
`n`-th DSU CTRLSTAT poll read, `err n` the result of `target_check_error` on
the `n`-th iteration, `time n` the `platform_time_ms` value at the `n`-th
progress check. -/
structure MassEraseEnv where
  status : Nat → Nat
  err : Nat → Bool
  time : Nat → Nat

/-- Modelled from the spec: `target_print_progress` is not in the snapshot;
§4.4 calls for "user-visible progress ticks" paced by the timeout.  When the
timeout has expired it emits one progress mark and re-arms the timeout for
another 500 ms; it cannot exit the enclosing loop (it returns nothing).
Returns the new deadline and whether a mark was printed. -/
def target_print_progress (now deadline : Nat) : Nat × Bool :=
  if deadline ≤ now then (now + 500, true) else (deadline, false)

/-- How the `samd_mass_erase` poll loop was left. -/
inductive EraseExit where
  /-- the `while` condition saw DONE/PERR/FAIL: fall through with `st` -/
  | status (st : Nat)
  /-- `target_check_error` reported an error: `return false` -/
  | targetError
  deriving Repr, DecidableEq

/-- The "Poll for DSU Ready" loop of `samd_mass_erase` (samd.c lines
658-665): exit with the status once DONE/PERR/FAIL shows, return false when a
target error is latched, otherwise print progress and keep polling.  Running
out of fuel returns `none`: the loop is still going.  Also counts the
progress marks emitted. -/
def samd_mass_erase_loop (env : MassEraseEnv) :
    Nat → Nat → Nat → Nat → Option EraseExit × Nat
  | 0, _n, _deadline, marks => (none, marks)
  | fuel + 1, n, deadline, marks =>
    let status := env.status n
    if status &&& (SAMD_STATUSA_DONE ||| SAMD_STATUSA_PERR |||
        SAMD_STATUSA_FAIL) ≠ 0 then
      (some (EraseExit.status status), marks)
    else if env.err n then (some EraseExit.targetError, marks)
    else
      let p := target_print_progress (env.time n) deadline
      samd_mass_erase_loop env fuel (n + 1) p.1
        (marks + if p.2 then 1 else 0)

/-- The message `samd_mass_erase` prints after the poll (samd.c 667-678). -/
inductive EraseMsg where
  | noMessage
  | protectionError
  | eraseFailed
  deriving Repr, DecidableEq

/-- `samd_mass_erase` (samd.c lines 646-679): clear DONE/PERR/FAIL, issue
CHIP_ERASE, poll with the 500 ms `platform_timeout` armed at `startTime`,
then report.  Returns (`none` = still polling when fuel ran out, otherwise
the C return value and the message printed), the progress-mark count, and
the target transactions issued before the poll. -/
def samd_mass_erase (env : MassEraseEnv) (fuel startTime : Nat) :
    Option (Bool × EraseMsg) × Nat × List TgtOp :=
  let pre := [TgtOp.write32 SAMD_DSU_CTRLSTAT
      (SAMD_STATUSA_DONE ||| SAMD_STATUSA_PERR ||| SAMD_STATUSA_FAIL),
    TgtOp.write32 SAMD_DSU_CTRLSTAT SAMD_CTRL_CHIP_ERASE]
  match samd_mass_erase_loop env fuel 0 (startTime + 500) 0 with
  | (none, marks) => (none, marks, pre)
  | (some EraseExit.targetError, marks) =>
    (some (false, EraseMsg.noMessage), marks, pre)
  | (some (EraseExit.status st), marks) =>
    if st &&& SAMD_STATUSA_PERR ≠ 0 then
      (some (true, EraseMsg.protectionError), marks, pre)
    else if st &&& SAMD_STATUSA_FAIL ≠ 0 then
      (some (true, EraseMsg.eraseFailed), marks, pre)
    else (some (true, EraseMsg.noMessage), marks, pre)

/-- A status exit of the mass-erase poll loop always carries one of the three
DONE/PERR/FAIL bits, and the value is one of the polled reads. -/
theorem samd_mass_erase_loop_status_bits (env : MassEraseEnv) :
    ∀ fuel n deadline marks st,
      (samd_mass_erase_loop env fuel n deadline marks).1 =
        some (EraseExit.status st) →
      st &&& (SAMD_STATUSA_DONE ||| SAMD_STATUSA_PERR |||
        SAMD_STATUSA_FAIL) ≠ 0 := by
  intro fuel
  induction fuel with
  | zero => intro n deadline marks st h; simp [samd_mass_erase_loop] at h
  | succ fuel ih =>
    intro n deadline marks st h
    by_cases hc : env.status n &&& (SAMD_STATUSA_DONE ||| SAMD_STATUSA_PERR |||
        SAMD_STATUSA_FAIL) ≠ 0
    · simp only [samd_mass_erase_loop, if_pos hc] at h
      obtain rfl : env.status n = st := by
        simpa [EraseExit.status.injEq] using h
      exact hc
    · simp only [samd_mass_erase_loop, if_neg hc] at h
      by_cases he : env.err n
      · simp [he] at h
      · simp only [he, if_neg] at h
        exact ih _ _ _ _ h

/-- C1 (counterexample): with no DONE/PERR/FAIL bit ever set and no target
error latched, after 20 poll iterations of 100 ms each — 1.9 s of platform
time, far beyond the 500 ms timeout, which has merely emitted three progress
marks — `samd_mass_erase` has neither returned nor reported a timeout: the
poll loop is still running. -/
theorem C1_counterexample_poll_outlives_timeout :
    (samd_mass_erase ⟨fun _ => 0, fun _ => false, fun n => 100 * n⟩ 20 0).1 =
      none ∧
    (samd_mass_erase ⟨fun _ => 0, fun _ => false, fun n => 100 * n⟩ 20 0).2.1 =
      3 := by
  decide

/-- C1 (amended): the DSU poll loop of `samd_mass_erase` exits exactly when a
CTRLSTAT read shows DONE/PERR/FAIL or `target_check_error` latches; the
500 ms `platform_timeout` only paces progress marks — the loop's result is
entirely independent of the timeout state and of platform time. -/
theorem C1_amended_timeout_never_exits_poll (env env' : MassEraseEnv)
    (fuel n deadline deadline' marks marks' : Nat)
    (hs : ∀ i, env.status i = env'.status i)
    (he : ∀ i, env.err i = env'.err i) :
    (samd_mass_erase_loop env fuel n deadline marks).1 =
      (samd_mass_erase_loop env' fuel n deadline' marks').1 ∧
    ((samd_mass_erase_loop env fuel n deadline marks).1 = none ↔
      ∀ i, n ≤ i → i < n + fuel →
        env.status i &&& (SAMD_STATUSA_DONE ||| SAMD_STATUSA_PERR |||
          SAMD_STATUSA_FAIL) = 0 ∧ env.err i = false) := by
  induction fuel generalizing n deadline deadline' marks marks' with
  | zero =>
    refine ⟨rfl, ⟨fun _ i h1 h2 => absurd h2 (by omega), fun _ => rfl⟩⟩
  | succ fuel ih =>
    by_cases hc : env.status n &&& (SAMD_STATUSA_DONE ||| SAMD_STATUSA_PERR |||
        SAMD_STATUSA_FAIL) ≠ 0
    · have hc' : env'.status n &&& (SAMD_STATUSA_DONE ||| SAMD_STATUSA_PERR |||
          SAMD_STATUSA_FAIL) ≠ 0 := by rw [← hs]; exact hc
      simp only [samd_mass_erase_loop, if_pos hc, if_pos hc', hs n]
      refine ⟨by trivial, ?_⟩
      constructor
      · intro h; cases h
      · intro h
        exact absurd (h n (Nat.le_refl n) (by omega)).1 hc
    · have hc' : ¬env'.status n &&& (SAMD_STATUSA_DONE ||| SAMD_STATUSA_PERR |||
          SAMD_STATUSA_FAIL) ≠ 0 := by rw [← hs]; exact hc
      by_cases herr : env.err n
      · have herr' : env'.err n := by rw [← he]; exact herr
        simp only [samd_mass_erase_loop, if_neg hc, if_neg hc', herr, herr',
          if_pos]
        refine ⟨by trivial, ?_⟩
        constructor
        · intro h; cases h
        · intro h
          have := (h n (Nat.le_refl n) (by omega)).2
          rw [herr] at this
          cases this
      · have herr' : env'.err n = false := by rw [← he]; simpa using herr
        simp only [samd_mass_erase_loop, if_neg hc, if_neg hc', herr, herr',
          Bool.false_eq_true, if_neg, not_false_eq_true]
        obtain ⟨ih1, ih2⟩ := ih (n + 1)
          (target_print_progress (env.time n) deadline).1
          (target_print_progress (env'.time n) deadline').1
          (marks + if (target_print_progress (env.time n) deadline).2 then 1
            else 0)
          (marks' + if (target_print_progress (env'.time n) deadline').2 then 1
            else 0)
        refine ⟨ih1, ?_⟩
        rw [ih2]
        constructor
        · intro h i h1 h2
          rcases Nat.eq_or_lt_of_le h1 with rfl | hlt
          · constructor
            · simpa using hc
            · simpa using herr
          · exact h i hlt (by omega)
        · intro h i h1 h2
          exact h i (by omega) (by omega)

/-- Witness for C1 (amended): on the all-zero status oracle the loop result
is the same for two different timeout states, and equals `none` exactly
because no exit condition occurs in the first five polls. -/
theorem C1_amended_witness :
    (samd_mass_erase_loop ⟨fun _ => 0, fun _ => false, fun n => 100 * n⟩
        5 0 500 0).1 =
      (samd_mass_erase_loop ⟨fun _ => 0, fun _ => false, fun n => 100 * n⟩
        5 0 999 7).1 ∧
    ((samd_mass_erase_loop ⟨fun _ => 0, fun _ => false, fun n => 100 * n⟩
        5 0 500 0).1 = none ↔
      ∀ i, 0 ≤ i → i < 0 + 5 →
        (fun (_ : Nat) => (0 : Nat)) i &&& (SAMD_STATUSA_DONE |||
          SAMD_STATUSA_PERR ||| SAMD_STATUSA_FAIL) = 0 ∧
        (fun (_ : Nat) => false) i = false) :=
  C1_amended_timeout_never_exits_poll
    ⟨fun _ => 0, fun _ => false, fun n => 100 * n⟩
    ⟨fun _ => 0, fun _ => false, fun n => 100 * n⟩
    5 0 500 999 0 7 (fun _ => rfl) (fun _ => rfl)

/-- C7: whenever the DSU poll completes with a status (DONE, PERR or FAIL
set), `samd_mass_erase` returns `true` — PERR and FAIL are carried only in
the printed message — and it returns `false` exactly when a target error was
latched during polling. -/
theorem C7_mass_erase_api_success (env : MassEraseEnv) (fuel startTime : Nat)
    (r : Bool × EraseMsg) (marks : Nat) (pre : List TgtOp)
    (h : samd_mass_erase env fuel startTime = (some r, marks, pre)) :
    ((∃ st, (samd_mass_erase_loop env fuel 0 (startTime + 500) 0).1 =
        some (EraseExit.status st)) ↔ r.1 = true) ∧
    ((samd_mass_erase_loop env fuel 0 (startTime + 500) 0).1 =
        some EraseExit.targetError ↔ r.1 = false) ∧
    (∀ st, (samd_mass_erase_loop env fuel 0 (startTime + 500) 0).1 =
        some (EraseExit.status st) →
      st &&& (SAMD_STATUSA_DONE ||| SAMD_STATUSA_PERR |||
        SAMD_STATUSA_FAIL) ≠ 0 ∧
      (r.2 = EraseMsg.protectionError ↔ st &&& SAMD_STATUSA_PERR ≠ 0) ∧
      (r.2 = EraseMsg.eraseFailed ↔
        st &&& SAMD_STATUSA_PERR = 0 ∧ st &&& SAMD_STATUSA_FAIL ≠ 0)) := by
  unfold samd_mass_erase at h
  rcases hloop : samd_mass_erase_loop env fuel 0 (startTime + 500) 0 with
    ⟨res, lmarks⟩
  rw [hloop] at h
  rcases res with _ | exit
  · simp at h
  rcases exit with st | _
  · have hbits := samd_mass_erase_loop_status_bits env fuel 0 (startTime + 500)
      0 st (by rw [hloop])
    by_cases hperr : st &&& SAMD_STATUSA_PERR ≠ 0
    · simp only [if_pos hperr, Prod.mk.injEq, Option.some.injEq] at h
      obtain ⟨hr, hm, hp⟩ := h
      subst hr; subst hm; subst hp
      refine ⟨by simp, by simp, ?_⟩
      intro st' hst'
      simp only [Option.some.injEq, EraseExit.status.injEq] at hst'
      subst hst'
      exact ⟨hbits, by simpa using hperr, by simp [hperr]⟩
    · by_cases hfail : st &&& SAMD_STATUSA_FAIL ≠ 0
      · simp only [if_neg hperr, if_pos hfail, Prod.mk.injEq,
          Option.some.injEq] at h
        obtain ⟨hr, hm, hp⟩ := h
        subst hr; subst hm; subst hp
        refine ⟨by simp, by simp, ?_⟩
        intro st' hst'
        simp only [Option.some.injEq, EraseExit.status.injEq] at hst'
        subst hst'
        exact ⟨hbits, iff_of_false (by simp) hperr,
          iff_of_true rfl ⟨not_ne_iff.mp hperr, hfail⟩⟩
      · simp only [if_neg hperr, if_neg hfail, Prod.mk.injEq,
          Option.some.injEq] at h
        obtain ⟨hr, hm, hp⟩ := h
        subst hr; subst hm; subst hp
        refine ⟨by simp, by simp, ?_⟩
        intro st' hst'
        simp only [Option.some.injEq, EraseExit.status.injEq] at hst'
        subst hst'
        exact ⟨hbits, by simp [hperr], by simp [hfail]⟩
  · simp only [Prod.mk.injEq, Option.some.injEq] at h
    obtain ⟨hr, hm, hp⟩ := h
    subst hr; subst hm; subst hp
    refine ⟨by simp, by simp, ?_⟩
    intro st hst
    simp at hst

/-- Witness for C7: a poll that immediately reads PERR makes the function
return `true` with the protection-error message. -/
theorem C7_mass_erase_witness :
    ((∃ st, (samd_mass_erase_loop
        ⟨fun _ => SAMD_STATUSA_PERR, fun _ => false, fun _ => 0⟩ 1 0
          (0 + 500) 0).1 = some (EraseExit.status st)) ↔
      (true, EraseMsg.protectionError).1 = true) ∧
    ((samd_mass_erase_loop
        ⟨fun _ => SAMD_STATUSA_PERR, fun _ => false, fun _ => 0⟩ 1 0
          (0 + 500) 0).1 = some EraseExit.targetError ↔
      (true, EraseMsg.protectionError).1 = false) ∧
    (∀ st, (samd_mass_erase_loop
        ⟨fun _ => SAMD_STATUSA_PERR, fun _ => false, fun _ => 0⟩ 1 0
          (0 + 500) 0).1 = some (EraseExit.status st) →
      st &&& (SAMD_STATUSA_DONE ||| SAMD_STATUSA_PERR |||
        SAMD_STATUSA_FAIL) ≠ 0 ∧
      ((true, EraseMsg.protectionError).2 = EraseMsg.protectionError ↔
        st &&& SAMD_STATUSA_PERR ≠ 0) ∧
      ((true, EraseMsg.protectionError).2 = EraseMsg.eraseFailed ↔
        st &&& SAMD_STATUSA_PERR = 0 ∧ st &&& SAMD_STATUSA_FAIL ≠ 0)) :=
  C7_mass_erase_api_success
    ⟨fun _ => SAMD_STATUSA_PERR, fun _ => false, fun _ => 0⟩ 1 0
    (true, EraseMsg.protectionError) 0
    [TgtOp.write32 SAMD_DSU_CTRLSTAT
      (SAMD_STATUSA_DONE ||| SAMD_STATUSA_PERR ||| SAMD_STATUSA_FAIL),
     TgtOp.write32 SAMD_DSU_CTRLSTAT SAMD_CTRL_CHIP_ERASE]
    (by decide)

/-! ## `samd_set_flashlock` (samd.c lines 688-719) -/

/-- Oracles for one `samd_set_flashlock` run: `mem32` serves the user-row
reads, `intflag n` is the `n`-th NVMC INTFLAG poll read, `err n` the
`target_check_error` result on the `n`-th poll iteration. -/
structure FlashlockEnv where
  mem32 : Nat → Nat
  intflag : Nat → Nat
  err : Nat → Bool

/-- How the "Poll for NVM Ready" loop of `samd_set_flashlock` was left. -/
inductive FlashlockPoll where
  /-- INTFLAG showed READY: fall through the loop -/
  | ready
  /-- `target_check_error` latched: the function executes `return -1;` -/
  | errorReturn
  deriving Repr, DecidableEq

/-- The READY poll of `samd_set_flashlock` (samd.c lines 703-705); `none`
means the fuel ran out with the loop still polling. -/
def samd_set_flashlock_poll (env : FlashlockEnv) :
    Nat → Nat → Option FlashlockPoll
  | 0, _n => none
  | fuel + 1, n =>
    if env.intflag n &&& SAMD_NVMC_READY = 0 then
      if env.err n then some FlashlockPoll.errorReturn
      else samd_set_flashlock_poll env fuel (n + 1)
    else some FlashlockPoll.ready

/-- `samd_set_flashlock` (samd.c lines 688-719): read the user row, erase the
aux row, poll READY (returning the C integer `-1` when a target error is
seen), then rewrite the user row with the lock `value` in the high half and
issue WRITEAUXPAGE, returning the C value `true` (1).  The first component is
the raw integer the `return` statements produce (before `_Bool` conversion);
`none` means the poll was still running when fuel ran out. -/
def samd_set_flashlock (env : FlashlockEnv) (fuel value : Nat) :
    Option Int × List TgtOp :=
  let high := env.mem32 SAMD_NVM_USER_ROW_HIGH
  let low := env.mem32 SAMD_NVM_USER_ROW_LOW
  let pre := [TgtOp.write32 SAMD_NVMC_ADDRESS (SAMD_NVM_USER_ROW_LOW >>> 1),
    TgtOp.write32 SAMD_NVMC_CTRLA
      (SAMD_CTRLA_CMD_KEY ||| SAMD_CTRLA_CMD_ERASEAUXROW)]
  match samd_set_flashlock_poll env fuel 0 with
  | none => (none, pre)
  | some FlashlockPoll.errorReturn => (some (-1), pre)
  | some FlashlockPoll.ready =>
    let high2 := (high &&& 0x0000FFFF) ||| ((value <<< 16) &&& 0xFFFF0000)
    (some 1,
     pre ++ [TgtOp.write32 SAMD_NVM_USER_ROW_LOW low,
       TgtOp.write32 SAMD_NVM_USER_ROW_HIGH high2,
       TgtOp.write32 SAMD_NVMC_CTRLA
         (SAMD_CTRLA_CMD_KEY ||| SAMD_CTRLA_CMD_WRITEAUXPAGE)])

/-- C11 6.3.1.2: conversion of an integer to `_Bool` yields true exactly when
the value is non-zero; this is what the `bool` return type of
`samd_set_flashlock` applies to the `return -1` statement. -/
def c_bool_of_int (i : Int) : Bool := decide (i ≠ 0)

/-- The `bool` value a C caller of `samd_set_flashlock` observes. -/
def samd_set_flashlock_as_bool (env : FlashlockEnv) (fuel value : Nat) :
    Option Bool :=
  (samd_set_flashlock env fuel value).1.map c_bool_of_int

/-- C9: when `target_check_error` reports an error during the READY poll,
`samd_set_flashlock` executes `return -1`; through the function's `bool`
return type this reaches callers as `true` — not the `false` (error result)
the claim says they observe.  Evaluation of the code at the failing input. -/
theorem C9_flashlock_error_reads_true :
    (samd_set_flashlock ⟨fun _ => 0, fun _ => 0, fun _ => true⟩ 5 0x0000).1 =
      some (-1) ∧
    samd_set_flashlock_as_bool ⟨fun _ => 0, fun _ => 0, fun _ => true⟩
      5 0x0000 = some true := by
  decide

/-! ## `cortexm_initial_halt` (adiv5.c lines 329-393) -/

/-- `dhcsr_ctl` (adiv5.c line 333). -/
def cortexm_dhcsr_ctl : Nat :=
  CORTEXM_DHCSR_DBGKEY ||| CORTEXM_DHCSR_C_DEBUGEN ||| CORTEXM_DHCSR_C_HALT

/-- `dhcsr_valid` (adiv5.c line 334). -/
def cortexm_dhcsr_valid : Nat :=
  CORTEXM_DHCSR_S_HALT ||| CORTEXM_DHCSR_C_DEBUGEN

/-- Oracles for one `cortexm_initial_halt` run: `dhcsr n` is the `n`-th DHCSR
sample, `expired n` the timeout check before the `n`-th iteration, `time n`
the `platform_time_ms` value during the `n`-th TRNCNT escalation, `ctrlstat`
the initial CTRL/STAT read and `startTime` the `platform_time_ms()` captured
before the loop. -/
structure HaltEnv where
  dhcsr : Nat → Nat
  expired : Nat → Bool
  time : Nat → Nat
  ctrlstat : Nat
  startTime : Nat

/-- The DP traffic of one halt-loop iteration (adiv5.c lines 358-371): on the
low-access path the dual CTRL/STAT+DRW write and the DRW read; on the MINDP
path the `adiv5_mem_write`/`adiv5_mem_read32` of DHCSR. -/
def cortexm_initial_halt_iter_ops (env : HaltEnv) (ap : ADIv5_AP)
    (useLow : Bool) (n trncnt : Nat) : List DpOp :=
  if useLow then
    [DpOp.lowWrite ADIV5_DP_CTRLSTAT
       ((env.ctrlstat ||| trncnt * ADIV5_DP_CTRLSTAT_TRNCNT) % 2 ^ 32),
     DpOp.lowWrite ADIV5_AP_DRW cortexm_dhcsr_ctl,
     DpOp.lowRead ADIV5_AP_DRW]
  else
    adiv5_mem_write (fun j => (cortexm_dhcsr_ctl >>> (8 * j)) &&& 0xFF) ap
        CORTEXM_DHCSR 4 ++
      (firmware_mem_read (fun _ => env.dhcsr n) ap CORTEXM_DHCSR 4).1

/-- The TRNCNT escalation (adiv5.c lines 362-366): while below 0xFFF, grow by
8 per elapsed millisecond (32-bit wrap-around as in C), else clamp. -/
def cortexm_trncnt_step (env : HaltEnv) (n trncnt : Nat) : Nat :=
  if trncnt < 0xfff then
    (trncnt + ((env.time n + 2 ^ 32 - env.startTime % 2 ^ 32) % 2 ^ 32) * 8) %
      2 ^ 32
  else 0xfff

/-- The `while (!platform_timeout_is_expired(&halt_timeout))` loop of
`cortexm_initial_halt` (adiv5.c lines 355-390): expiry returns 0; a sample of
`0xFFFFFFFF` or with a reserved RAZ bit (mask `0xF000FFF0`) set is discarded;
a fresh `S_RESET_ST` sample is returned at once under `connect_assert_nrst`
(`can`), otherwise tolerated once by latching `reset_seen`; a sample with
`C_DEBUGEN|S_HALT` is returned.  Fuel exhaustion (`none`) means the loop was
still running. -/
def cortexm_initial_halt_loop (env : HaltEnv) (ap : ADIv5_AP)
    (useLow can : Bool) :
    Nat → Nat → Nat → Bool → Option Nat × List DpOp
  | 0, _n, _trncnt, _resetSeen => (none, [])
  | fuel + 1, n, trncnt, resetSeen =>
    if env.expired n then (some 0, [])
    else
      let iterOps := cortexm_initial_halt_iter_ops env ap useLow n trncnt
      let trncnt2 := if useLow then cortexm_trncnt_step env n trncnt
        else trncnt
      let dhcsr := env.dhcsr n
      if dhcsr ≠ 0xffffffff ∧ dhcsr &&& 0xf000fff0 = 0 then
        if dhcsr &&& CORTEXM_DHCSR_S_RESET_ST ≠ 0 ∧ resetSeen = false then
          if can then (some dhcsr, iterOps)
          else
            let r := cortexm_initial_halt_loop env ap useLow can fuel (n + 1)
              trncnt2 true
            (r.1, iterOps ++ r.2)
        else if dhcsr &&& cortexm_dhcsr_valid = cortexm_dhcsr_valid then
          (some dhcsr, iterOps)
        else
          let r := cortexm_initial_halt_loop env ap useLow can fuel (n + 1)
            trncnt2 resetSeen
          (r.1, iterOps ++ r.2)
      else
        let r := cortexm_initial_halt_loop env ap useLow can fuel (n + 1)
          trncnt2 resetSeen
        (r.1, iterOps ++ r.2)

/-- `cortexm_initial_halt` (adiv5.c lines 329-393): initial CTRL/STAT read,
CSW/TAR pre-programming on the low-access path, then the sampling loop with
`trncnt` starting at 0x80 and `reset_seen` false. -/
def cortexm_initial_halt (env : HaltEnv) (ap : ADIv5_AP) (mindp can : Bool)
    (fuel : Nat) : Option Nat × List DpOp :=
  let useLow := !mindp
  let setupOps := if useLow then
      firmware_ap_write ap ADIV5_AP_CSW (ap.csw ||| ADIV5_AP_CSW_SIZE_WORD) ++
        [DpOp.lowWrite ADIV5_AP_TAR CORTEXM_DHCSR]
    else []
  let r := cortexm_initial_halt_loop env ap useLow can fuel 0 0x80 false
  (r.1, DpOp.dpRead ADIV5_DP_CTRLSTAT :: setupOps ++ r.2)

/-- Soundness of the halt loop without `connect_assert_nrst`: any returned
value is either the timeout 0 or an accepted sample (not `0xFFFFFFFF`, RAZ
bits clear) carrying `C_DEBUGEN|S_HALT`. -/
theorem cortexm_initial_halt_loop_sound (env : HaltEnv) (ap : ADIv5_AP)
    (useLow : Bool) :
    ∀ fuel n trncnt resetSeen d,
      (cortexm_initial_halt_loop env ap useLow false fuel n trncnt
        resetSeen).1 = some d →
      d = 0 ∨ (d ≠ 0xffffffff ∧ d &&& 0xf000fff0 = 0 ∧
        d &&& cortexm_dhcsr_valid = cortexm_dhcsr_valid ∧
        ∃ i, d = env.dhcsr i) := by
  intro fuel
  induction fuel with
  | zero =>
    intro n trncnt resetSeen d h
    simp [cortexm_initial_halt_loop] at h
  | succ fuel ih =>
    intro n trncnt resetSeen d h
    simp only [cortexm_initial_halt_loop] at h
    by_cases hexp : env.expired n
    · simp [hexp] at h
      exact Or.inl h.symm
    · simp only [hexp, Bool.false_eq_true, if_false] at h
      by_cases hacc : env.dhcsr n ≠ 0xffffffff ∧
          env.dhcsr n &&& 0xf000fff0 = 0
      · simp only [if_pos hacc] at h
        by_cases hrs : env.dhcsr n &&& CORTEXM_DHCSR_S_RESET_ST ≠ 0 ∧
            resetSeen = false
        · simp only [if_pos hrs, if_false, Bool.false_eq_true] at h
          exact ih _ _ _ _ h
        · simp only [if_neg hrs] at h
          by_cases hval : env.dhcsr n &&& cortexm_dhcsr_valid =
              cortexm_dhcsr_valid
          · simp only [if_pos hval, Option.some.injEq] at h
            exact Or.inr ⟨h ▸ hacc.1, h ▸ hacc.2, h ▸ hval, n, h.symm⟩
          · simp only [if_neg hval] at h
            exact ih _ _ _ _ h
      · simp only [if_neg hacc] at h
        exact ih _ _ _ _ h

/-- C3 (counterexample): with `connect_assert_nrst` set, the very first
accepted DHCSR sample carrying `S_RESET_ST` is returned as success — it is
not tolerated by latching `reset_seen`, and it lacks both `C_DEBUGEN` and
`S_HALT` — contradicting the claim's description of every invocation. -/
theorem C3_counterexample_reset_sample_returned :
    (cortexm_initial_halt
      ⟨fun _ => CORTEXM_DHCSR_S_RESET_ST, fun _ => false, fun _ => 0, 0, 0⟩
      ⟨0, 0, 0, 0⟩ false true 3).1 = some CORTEXM_DHCSR_S_RESET_ST ∧
    CORTEXM_DHCSR_S_RESET_ST &&& cortexm_dhcsr_valid ≠ cortexm_dhcsr_valid ∧
    CORTEXM_DHCSR_S_RESET_ST ≠ 0xffffffff ∧
    CORTEXM_DHCSR_S_RESET_ST &&& 0xf000fff0 = 0 := by
  decide

/-- C3 (amended): without `connect_assert_nrst` the loop behaves as the claim
says: (1) any success value of `cortexm_initial_halt` is the timeout 0 or an
accepted sample with `C_DEBUGEN|S_HALT` both set; (2) timeout expiry returns
0; (3) a sample equal to `0xFFFFFFFF` or with a RAZ bit set is discarded and
polling continues; (4) a fresh `S_RESET_ST` sample is tolerated exactly once
by latching `reset_seen`.  (With `connect_assert_nrst`, such a sample is
instead returned immediately — the counterexample.) -/
theorem C3_amended_halt_sample_filter (env : HaltEnv) (ap : ADIv5_AP)
    (mindp useLow : Bool) (fuel n trncnt : Nat) (resetSeen : Bool) :
    (∀ d, (cortexm_initial_halt env ap mindp false fuel).1 = some d →
      d = 0 ∨ (d ≠ 0xffffffff ∧ d &&& 0xf000fff0 = 0 ∧
        d &&& cortexm_dhcsr_valid = cortexm_dhcsr_valid ∧
        ∃ i, d = env.dhcsr i)) ∧
    (env.expired n = true →
      cortexm_initial_halt_loop env ap useLow false (fuel + 1) n trncnt
        resetSeen = (some 0, [])) ∧
    (env.expired n = false →
      (env.dhcsr n = 0xffffffff ∨ env.dhcsr n &&& 0xf000fff0 ≠ 0) →
      (cortexm_initial_halt_loop env ap useLow false (fuel + 1) n trncnt
          resetSeen).1 =
        (cortexm_initial_halt_loop env ap useLow false fuel (n + 1)
          (if useLow then cortexm_trncnt_step env n trncnt else trncnt)
          resetSeen).1) ∧
    (env.expired n = false → env.dhcsr n ≠ 0xffffffff →
      env.dhcsr n &&& 0xf000fff0 = 0 →
      env.dhcsr n &&& CORTEXM_DHCSR_S_RESET_ST ≠ 0 →
      (cortexm_initial_halt_loop env ap useLow false (fuel + 1) n trncnt
          false).1 =
        (cortexm_initial_halt_loop env ap useLow false fuel (n + 1)
          (if useLow then cortexm_trncnt_step env n trncnt else trncnt)
          true).1) := by
  refine ⟨?_, ?_, ?_, ?_⟩
  · intro d h
    exact cortexm_initial_halt_loop_sound env ap (!mindp) fuel 0 0x80 false d h
  · intro hexp
    simp [cortexm_initial_halt_loop, hexp]
  · intro hexp hbad
    have hacc : ¬(env.dhcsr n ≠ 0xffffffff ∧
        env.dhcsr n &&& 0xf000fff0 = 0) := by
      rcases hbad with hb | hb
      · exact fun hh => hh.1 hb
      · exact fun hh => hb hh.2
    simp [cortexm_initial_halt_loop, hexp, if_neg hacc]
  · intro hexp h1 h2 h3
    have hacc : env.dhcsr n ≠ 0xffffffff ∧ env.dhcsr n &&& 0xf000fff0 = 0 :=
      ⟨h1, h2⟩
    simp [cortexm_initial_halt_loop, hexp, if_pos hacc, h3]

/-- A concrete halt-test oracle: a garbage sample, then a fresh-reset sample,
then a proper halted DHCSR value; the timeout never expires. -/
def haltTestEnv : HaltEnv :=
  ⟨fun i => if i = 0 then 0xffffffff else if i = 1 then
      CORTEXM_DHCSR_S_RESET_ST else 0x00030003,
    fun _ => false, fun _ => 0, 0, 0⟩

/-- Witness for C3 (amended): the four parts instantiated on `haltTestEnv`. -/
theorem C3_amended_halt_witness :
    (∀ d, (cortexm_initial_halt haltTestEnv ⟨0, 0, 0, 0⟩ false false 4).1 =
        some d →
      d = 0 ∨ (d ≠ 0xffffffff ∧ d &&& 0xf000fff0 = 0 ∧
        d &&& cortexm_dhcsr_valid = cortexm_dhcsr_valid ∧
        ∃ i, d = haltTestEnv.dhcsr i)) ∧
    (haltTestEnv.expired 0 = true →
      cortexm_initial_halt_loop haltTestEnv ⟨0, 0, 0, 0⟩ true false 5 0 0x80
        false = (some 0, [])) ∧
    (haltTestEnv.expired 0 = false →
      (haltTestEnv.dhcsr 0 = 0xffffffff ∨
        haltTestEnv.dhcsr 0 &&& 0xf000fff0 ≠ 0) →
      (cortexm_initial_halt_loop haltTestEnv ⟨0, 0, 0, 0⟩ true false 5 0 0x80
          false).1 =
        (cortexm_initial_halt_loop haltTestEnv ⟨0, 0, 0, 0⟩ true false 4 1
          (if true then cortexm_trncnt_step haltTestEnv 0 0x80 else 0x80)
          false).1) ∧
    (haltTestEnv.expired 0 = false → haltTestEnv.dhcsr 0 ≠ 0xffffffff →
      haltTestEnv.dhcsr 0 &&& 0xf000fff0 = 0 →
      haltTestEnv.dhcsr 0 &&& CORTEXM_DHCSR_S_RESET_ST ≠ 0 →
      (cortexm_initial_halt_loop haltTestEnv ⟨0, 0, 0, 0⟩ true false 5 0 0x80
          false).1 =
        (cortexm_initial_halt_loop haltTestEnv ⟨0, 0, 0, 0⟩ true false 4 1
          (if true then cortexm_trncnt_step haltTestEnv 0 0x80 else 0x80)
          true).1) :=
  C3_amended_halt_sample_filter haltTestEnv ⟨0, 0, 0, 0⟩ false true 4 0 0x80
    false

/-! ## AP enumeration (`adiv5_new_ap`, adiv5.c lines 624-668, and the probe
loop of `adiv5_dp_init`, lines 833-883) -/

/-- 32-bit complement, as C `~x` on a `uint32_t`. -/
def compl32 (x : Nat) : Nat := 0xFFFFFFFF ^^^ x

/-- The AP register values `adiv5_new_ap` reads for one `apsel`. -/
structure APRegs where
  idr : Nat
  base : Nat
  csw : Nat
  deriving Repr, DecidableEq

/-- Oracles for the AP probe loop: the registers of each AP and whether the
heap allocation in `adiv5_new_ap` succeeds. -/
structure EnumEnv where
  regs : Nat → APRegs
  mallocOk : Nat → Bool

/-- `adiv5_new_ap` (adiv5.c lines 624-668): read IDR and BASE, reject the
`0xFFFFFFFF` debug-base sentinel, reject a zero IDR, cache CSW with the size
and increment bits cleared, reject an AP with a transaction in progress, and
reject on heap exhaustion. -/
def adiv5_new_ap (env : EnumEnv) (apsel : Nat) : Option ADIv5_AP :=
  let idr := (env.regs apsel).idr
  let base := (env.regs apsel).base
  if base = 0xffffffff then none
  else if idr = 0 then none
  else
    let csw := (env.regs apsel).csw &&&
      compl32 (ADIV5_AP_CSW_SIZE_MASK ||| ADIV5_AP_CSW_ADDRINC_MASK)
    if csw &&& ADIV5_AP_CSW_TRINPROG ≠ 0 then none
    else if env.mallocOk apsel then
      some { apsel := apsel, idr := idr, base := base, csw := csw }
    else none

/-- Why the AP probe loop of `adiv5_dp_init` ended. -/
inductive ScanStop where
  /-- the `for` guard stopped it (all 256 indices examined) -/
  | exhausted
  /-- `++invalid_aps == 8` made the function return -/
  | invalidLimit
  /-- a valid AP whose BASE duplicates the previous one made it return -/
  | dupBase
  deriving Repr, DecidableEq

/-- The AP probe loop of `adiv5_dp_init` (adiv5.c lines 837-883): walk
`apsel` indices while `i < 256 && invalid_aps < 8`; an invalid AP bumps
`invalid_aps` and returns at 8; a valid AP duplicating the previous BASE
returns; otherwise the AP is probed and `last_base` updated.  Returns the
probed `(apsel, base)` pairs, the number of `adiv5_new_ap` calls made, and
the stop reason.  `rem` counts the remaining indices (256 at entry). -/
def adiv5_ap_scan_loop (env : EnumEnv) :
    Nat → Nat → Nat → Nat → List (Nat × Nat) × Nat × ScanStop
  | 0, _i, _invalid, _lastBase => ([], 0, ScanStop.exhausted)
  | rem + 1, i, invalid, lastBase =>
    if invalid < 8 then
      match adiv5_new_ap env i with
      | none =>
        if invalid + 1 = 8 then ([], 1, ScanStop.invalidLimit)
        else
          let r := adiv5_ap_scan_loop env rem (i + 1) (invalid + 1) lastBase
          (r.1, r.2.1 + 1, r.2.2)
      | some ap =>
        if ap.base = lastBase then ([], 1, ScanStop.dupBase)
        else
          let r := adiv5_ap_scan_loop env rem (i + 1) invalid ap.base
          ((i, ap.base) :: r.1, r.2.1 + 1, r.2.2)
    else ([], 0, ScanStop.exhausted)

/-- The AP probe loop from its `adiv5_dp_init` entry state: index 0, no
invalid APs seen, `last_base = 0`. -/
def adiv5_ap_scan (env : EnumEnv) : List (Nat × Nat) × Nat × ScanStop :=
  adiv5_ap_scan_loop env 256 0 0 0

/-- Spec-side count of invalid APs among indices `[i, i+k)`. -/
def invalidBetween (env : EnumEnv) : Nat → Nat → Nat
  | _i, 0 => 0
  | i, k + 1 =>
    (if (adiv5_new_ap env i).isNone then 1 else 0) +
      invalidBetween env (i + 1) k

/-- Spec-side count of invalid APs among indices `[0, n)`. -/
def invalidCount (env : EnumEnv) (n : Nat) : Nat := invalidBetween env 0 n

/-- The enumeration rule exactly as claim C2 words it: stop early after 8
*consecutive* invalid APs, a valid AP in between restarting the count
(duplicate-BASE handling kept identical to the code so that the counting
rule is the only difference under test). -/
def ap_scan_consecutive (env : EnumEnv) :
    Nat → Nat → Nat → Nat → List (Nat × Nat) × Nat × ScanStop
  | 0, _i, _invalid, _lastBase => ([], 0, ScanStop.exhausted)
  | rem + 1, i, invalid, lastBase =>
    if invalid < 8 then
      match adiv5_new_ap env i with
      | none =>
        if invalid + 1 = 8 then ([], 1, ScanStop.invalidLimit)
        else
          let r := ap_scan_consecutive env rem (i + 1) (invalid + 1) lastBase
          (r.1, r.2.1 + 1, r.2.2)
      | some ap =>
        if ap.base = lastBase then ([], 1, ScanStop.dupBase)
        else
          let r := ap_scan_consecutive env rem (i + 1) 0 ap.base
          ((i, ap.base) :: r.1, r.2.1 + 1, r.2.2)
    else ([], 0, ScanStop.exhausted)

/-- A register map with APs 0-6 and 8-255 invalid (zero IDR) and AP 7 valid
with BASE 5: seven invalid APs, one valid AP, then invalid APs again. -/
def apScanTestEnv : EnumEnv :=
  ⟨fun i => if i = 7 then ⟨1, 5, 0⟩ else ⟨0, 0, 0⟩, fun _ => true⟩

/-- C2 (counterexample): on `apScanTestEnv` the code stops enumerating after
examining only indices 0-8 (the 8th *cumulative* invalid AP triggers the
early exit) although no 8 *consecutive* invalid APs were seen — the valid
AP 7 did not restart the count; the claim's consecutive rule would examine
16 indices. -/
theorem C2_counterexample_count_not_restarted :
    (adiv5_new_ap apScanTestEnv 7).isSome = true ∧
    (adiv5_ap_scan apScanTestEnv).2.1 = 9 ∧
    (adiv5_ap_scan apScanTestEnv).2.2 = ScanStop.invalidLimit ∧
    (ap_scan_consecutive apScanTestEnv 256 0 0 0).2.1 = 16 := by
  decide

/-- Characterization of the AP probe loop against the spec-side cumulative
count: starting below the limit, an `invalidLimit` stop happens exactly when
the cumulative count of invalid APs reaches 8 (valid APs never reset it), an
`exhausted` stop examines every remaining index with the count below 8
throughout, and a `dupBase` stop ends at a valid AP. -/
theorem adiv5_ap_scan_loop_characterization (env : EnumEnv) :
    ∀ rem i invalid lastBase, invalid < 8 →
      ((adiv5_ap_scan_loop env rem i invalid lastBase).2.2 =
          ScanStop.invalidLimit →
        invalid + invalidBetween env i
            (adiv5_ap_scan_loop env rem i invalid lastBase).2.1 = 8 ∧
        ∀ k < (adiv5_ap_scan_loop env rem i invalid lastBase).2.1,
          invalid + invalidBetween env i k < 8) ∧
      ((adiv5_ap_scan_loop env rem i invalid lastBase).2.2 =
          ScanStop.exhausted →
        (adiv5_ap_scan_loop env rem i invalid lastBase).2.1 = rem ∧
        ∀ k ≤ rem, invalid + invalidBetween env i k < 8) ∧
      ((adiv5_ap_scan_loop env rem i invalid lastBase).2.2 =
          ScanStop.dupBase →
        1 ≤ (adiv5_ap_scan_loop env rem i invalid lastBase).2.1 ∧
        (adiv5_new_ap env
          (i + (adiv5_ap_scan_loop env rem i invalid lastBase).2.1 -
            1)).isSome = true) := by
  intro rem
  induction rem with
  | zero =>
    intro i invalid lastBase hlt
    refine ⟨?_, ?_, ?_⟩ <;> intro h
    · exact absurd h (by simp [adiv5_ap_scan_loop])
    · refine ⟨rfl, ?_⟩
      intro k hk
      obtain rfl : k = 0 := by omega
      simpa [invalidBetween] using hlt
    · exact absurd h (by simp [adiv5_ap_scan_loop])
  | succ rem ih =>
    intro i invalid lastBase hlt
    cases hap : adiv5_new_ap env i with
    | none =>
      by_cases h8 : invalid + 1 = 8
      · simp only [adiv5_ap_scan_loop, if_pos hlt, hap, if_pos h8]
        refine ⟨?_, ?_, ?_⟩ <;> intro h
        · refine ⟨by simp [invalidBetween, hap]; omega, ?_⟩
          intro k hk
          obtain rfl : k = 0 := by omega
          simpa [invalidBetween] using hlt
        · cases h
        · cases h
      · obtain ⟨ihA, ihB, ihC⟩ := ih (i + 1) (invalid + 1) lastBase (by omega)
        simp only [adiv5_ap_scan_loop, if_pos hlt, hap, if_neg h8]
        refine ⟨?_, ?_, ?_⟩ <;> intro h
        · obtain ⟨e1, e2⟩ := ihA h
          refine ⟨by simp [invalidBetween, hap]; omega, ?_⟩
          intro k hk
          cases k with
          | zero => simpa [invalidBetween] using hlt
          | succ k =>
            have := e2 k (by omega)
            simp [invalidBetween, hap]
            omega
        · obtain ⟨e1, e2⟩ := ihB h
          refine ⟨by omega, ?_⟩
          intro k hk
          cases k with
          | zero => simpa [invalidBetween] using hlt
          | succ k =>
            have := e2 k (by omega)
            simp [invalidBetween, hap]
            omega
        · obtain ⟨e1, e2⟩ := ihC h
          refine ⟨by omega, ?_⟩
          have harith : i + ((adiv5_ap_scan_loop env rem (i + 1) (invalid + 1)
              lastBase).2.1 + 1) - 1 =
            i + 1 + (adiv5_ap_scan_loop env rem (i + 1) (invalid + 1)
              lastBase).2.1 - 1 := by omega
          rw [harith]
          exact e2
    | some ap =>
      by_cases hdup : ap.base = lastBase
      · simp only [adiv5_ap_scan_loop, if_pos hlt, hap, if_pos hdup]
        refine ⟨?_, ?_, ?_⟩ <;> intro h
        · cases h
        · cases h
        · refine ⟨by omega, ?_⟩
          have harith : i + 1 - 1 = i := by omega
          rw [harith, hap]
          rfl
      · obtain ⟨ihA, ihB, ihC⟩ := ih (i + 1) invalid ap.base hlt
        simp only [adiv5_ap_scan_loop, if_pos hlt, hap, if_neg hdup]
        refine ⟨?_, ?_, ?_⟩ <;> intro h
        · obtain ⟨e1, e2⟩ := ihA h
          refine ⟨by simp [invalidBetween, hap]; omega, ?_⟩
          intro k hk
          cases k with
          | zero => simpa [invalidBetween] using hlt
          | succ k =>
            have := e2 k (by omega)
            simp [invalidBetween, hap]
            omega
        · obtain ⟨e1, e2⟩ := ihB h
          refine ⟨by omega, ?_⟩
          intro k hk
          cases k with
          | zero => simpa [invalidBetween] using hlt
          | succ k =>
            have := e2 k (by omega)
            simp [invalidBetween, hap]
            omega
        · obtain ⟨e1, e2⟩ := ihC h
          refine ⟨by omega, ?_⟩
          have harith : i + ((adiv5_ap_scan_loop env rem (i + 1) invalid
              ap.base).2.1 + 1) - 1 =
            i + 1 + (adiv5_ap_scan_loop env rem (i + 1) invalid
              ap.base).2.1 - 1 := by omega
          rw [harith]
          exact e2

/-- C2 (amended): during DP initialisation, AP indices 0..255 are enumerated
and enumeration stops early exactly when the *cumulative* number of invalid
APs reaches 8 — a valid AP in between does not restart the count — or when a
valid AP's BASE duplicates the previous one; otherwise all 256 indices are
examined and the invalid count stays below 8 throughout. -/
theorem C2_amended_cumulative_invalid_limit (env : EnumEnv) :
    ((adiv5_ap_scan env).2.2 = ScanStop.invalidLimit →
      invalidCount env (adiv5_ap_scan env).2.1 = 8 ∧
      ∀ k < (adiv5_ap_scan env).2.1, invalidCount env k < 8) ∧
    ((adiv5_ap_scan env).2.2 = ScanStop.exhausted →
      (adiv5_ap_scan env).2.1 = 256 ∧ ∀ k ≤ 256, invalidCount env k < 8) ∧
    ((adiv5_ap_scan env).2.2 = ScanStop.dupBase →
      1 ≤ (adiv5_ap_scan env).2.1 ∧
      (adiv5_new_ap env ((adiv5_ap_scan env).2.1 - 1)).isSome = true) := by
  have h := adiv5_ap_scan_loop_characterization env 256 0 0 0 (by omega)
  simpa [adiv5_ap_scan, invalidCount] using h

/-- Witness for C2 (amended): on `apScanTestEnv` the loop stops with the
cumulative-count rule after examining 9 indices. -/
theorem C2_amended_witness :
    ((adiv5_ap_scan apScanTestEnv).2.2 = ScanStop.invalidLimit →
      invalidCount apScanTestEnv (adiv5_ap_scan apScanTestEnv).2.1 = 8 ∧
      ∀ k < (adiv5_ap_scan apScanTestEnv).2.1,
        invalidCount apScanTestEnv k < 8) ∧
    ((adiv5_ap_scan apScanTestEnv).2.2 = ScanStop.exhausted →
      (adiv5_ap_scan apScanTestEnv).2.1 = 256 ∧
      ∀ k ≤ 256, invalidCount apScanTestEnv k < 8) ∧
    ((adiv5_ap_scan apScanTestEnv).2.2 = ScanStop.dupBase →
      1 ≤ (adiv5_ap_scan apScanTestEnv).2.1 ∧
      (adiv5_new_ap apScanTestEnv
        ((adiv5_ap_scan apScanTestEnv).2.1 - 1)).isSome = true) :=
  C2_amended_cumulative_invalid_limit apScanTestEnv

/-! ## ROM-table walker (`adiv5_component_probe`, adiv5.c lines 446-622) -/

/-- `enum arm_arch` (adiv5.c lines 131-136). -/
inductive ArmArch where
  | nosupport
  | cortexm
  | cortexa
  | aend
  deriving Repr, DecidableEq

/-- One row of `arm_component_lut` (adiv5.c lines 182-272); the debug-only
string fields are compiled out. -/
structure ArmComponent where
  part_number : Nat
  dev_type : Nat
  arch_id : Nat
  arch : ArmArch
  cidc : Nat
  deriving Repr, DecidableEq

/-- `arm_component_lut` (adiv5.c lines 192-272). -/
def arm_component_lut : List ArmComponent := [
  ⟨0x000, 0x00, 0, ArmArch.cortexm, cidc_gipc⟩,
  ⟨0x001, 0x00, 0, ArmArch.nosupport, cidc_unknown⟩,
  ⟨0x002, 0x00, 0, ArmArch.nosupport, cidc_unknown⟩,
  ⟨0x003, 0x00, 0, ArmArch.nosupport, cidc_unknown⟩,
  ⟨0x008, 0x00, 0, ArmArch.cortexm, cidc_gipc⟩,
  ⟨0x00a, 0x00, 0, ArmArch.nosupport, cidc_unknown⟩,
  ⟨0x00b, 0x00, 0, ArmArch.nosupport, cidc_unknown⟩,
  ⟨0x00c, 0x00, 0, ArmArch.cortexm, cidc_gipc⟩,
  ⟨0x00d, 0x00, 0, ArmArch.nosupport, cidc_unknown⟩,
  ⟨0x00e, 0x00, 0, ArmArch.nosupport, cidc_unknown⟩,
  ⟨0x101, 0x00, 0, ArmArch.nosupport, cidc_unknown⟩,
  ⟨0x471, 0x00, 0, ArmArch.nosupport, cidc_unknown⟩,
  ⟨0x490, 0x00, 0, ArmArch.nosupport, cidc_unknown⟩,
  ⟨0x4c0, 0x00, 0, ArmArch.nosupport, cidc_unknown⟩,
  ⟨0x4c3, 0x00, 0, ArmArch.nosupport, cidc_unknown⟩,
  ⟨0x4c4, 0x00, 0, ArmArch.nosupport, cidc_unknown⟩,
  ⟨0x4c7, 0x00, 0, ArmArch.nosupport, cidc_unknown⟩,
  ⟨0x4c8, 0x00, 0, ArmArch.nosupport, cidc_unknown⟩,
  ⟨0x906, 0x14, 0, ArmArch.nosupport, cidc_unknown⟩,
  ⟨0x907, 0x21, 0, ArmArch.nosupport, cidc_unknown⟩,
  ⟨0x908, 0x12, 0, ArmArch.nosupport, cidc_unknown⟩,
  ⟨0x910, 0x00, 0, ArmArch.nosupport, cidc_unknown⟩,
  ⟨0x912, 0x11, 0, ArmArch.nosupport, cidc_unknown⟩,
  ⟨0x913, 0x00, 0, ArmArch.nosupport, cidc_unknown⟩,
  ⟨0x914, 0x11, 0, ArmArch.nosupport, cidc_unknown⟩,
  ⟨0x917, 0x00, 0, ArmArch.nosupport, cidc_unknown⟩,
  ⟨0x920, 0x00, 0, ArmArch.nosupport, cidc_unknown⟩,
  ⟨0x921, 0x00, 0, ArmArch.nosupport, cidc_unknown⟩,
  ⟨0x922, 0x00, 0, ArmArch.nosupport, cidc_unknown⟩,
  ⟨0x923, 0x11, 0, ArmArch.nosupport, cidc_unknown⟩,
  ⟨0x924, 0x13, 0, ArmArch.nosupport, cidc_unknown⟩,
  ⟨0x925, 0x13, 0, ArmArch.nosupport, cidc_unknown⟩,
  ⟨0x930, 0x00, 0, ArmArch.nosupport, cidc_unknown⟩,
  ⟨0x932, 0x31, 0x0a31, ArmArch.nosupport, cidc_unknown⟩,
  ⟨0x941, 0x00, 0, ArmArch.nosupport, cidc_unknown⟩,
  ⟨0x950, 0x00, 0, ArmArch.nosupport, cidc_unknown⟩,
  ⟨0x955, 0x00, 0, ArmArch.nosupport, cidc_unknown⟩,
  ⟨0x956, 0x13, 0, ArmArch.nosupport, cidc_unknown⟩,
  ⟨0x95f, 0x00, 0, ArmArch.nosupport, cidc_unknown⟩,
  ⟨0x961, 0x32, 0, ArmArch.nosupport, cidc_unknown⟩,
  ⟨0x962, 0x00, 0, ArmArch.nosupport, cidc_unknown⟩,
  ⟨0x963, 0x63, 0x0a63, ArmArch.nosupport, cidc_unknown⟩,
  ⟨0x975, 0x13, 0x4a13, ArmArch.nosupport, cidc_unknown⟩,
  ⟨0x9a0, 0x00, 0, ArmArch.nosupport, cidc_unknown⟩,
  ⟨0x9a1, 0x11, 0, ArmArch.nosupport, cidc_unknown⟩,
  ⟨0x9a6, 0x14, 0x1a14, ArmArch.nosupport, cidc_dc⟩,
  ⟨0x9a9, 0x11, 0, ArmArch.nosupport, cidc_unknown⟩,
  ⟨0x9a5, 0x00, 0, ArmArch.nosupport, cidc_unknown⟩,
  ⟨0x9a7, 0x16, 0, ArmArch.nosupport, cidc_unknown⟩,
  ⟨0x9af, 0x00, 0, ArmArch.nosupport, cidc_unknown⟩,
  ⟨0xc05, 0x00, 0, ArmArch.cortexa, cidc_dc⟩,
  ⟨0xc07, 0x15, 0, ArmArch.cortexa, cidc_dc⟩,
  ⟨0xc08, 0x00, 0, ArmArch.cortexa, cidc_dc⟩,
  ⟨0xc09, 0x00, 0, ArmArch.cortexa, cidc_dc⟩,
  ⟨0xc0f, 0x00, 0, ArmArch.nosupport, cidc_unknown⟩,
  ⟨0xc14, 0x00, 0, ArmArch.nosupport, cidc_unknown⟩,
  ⟨0xcd0, 0x00, 0, ArmArch.nosupport, cidc_unknown⟩,
  ⟨0xd20, 0x00, 0x2a04, ArmArch.cortexm, cidc_dc⟩,
  ⟨0xd20, 0x11, 0, ArmArch.nosupport, cidc_dc⟩,
  ⟨0xd20, 0x13, 0, ArmArch.nosupport, cidc_dc⟩,
  ⟨0xd20, 0x31, 0x0a31, ArmArch.nosupport, cidc_dc⟩,
  ⟨0xd20, 0x00, 0x1a02, ArmArch.nosupport, cidc_dc⟩,
  ⟨0xd20, 0x00, 0x1a03, ArmArch.nosupport, cidc_dc⟩,
  ⟨0xd20, 0x14, 0x1a14, ArmArch.nosupport, cidc_dc⟩,
  ⟨0xd21, 0x00, 0x2a04, ArmArch.cortexm, cidc_dc⟩,
  ⟨0xd21, 0x31, 0x0a31, ArmArch.nosupport, cidc_dc⟩,
  ⟨0xd21, 0x43, 0x1a01, ArmArch.nosupport, cidc_dc⟩,
  ⟨0xd21, 0x00, 0x1a02, ArmArch.nosupport, cidc_dc⟩,
  ⟨0xd21, 0x00, 0x1a03, ArmArch.nosupport, cidc_dc⟩,
  ⟨0xd21, 0x14, 0x1a14, ArmArch.nosupport, cidc_dc⟩,
  ⟨0xd21, 0x13, 0x4a13, ArmArch.nosupport, cidc_dc⟩,
  ⟨0xd21, 0x11, 0, ArmArch.nosupport, cidc_dc⟩,
  ⟨0xfff, 0x00, 0, ArmArch.aend, cidc_unknown⟩]

/-- The lookup loop over `arm_component_lut` (adiv5.c lines 583-613): walk
until the `aa_end` sentinel, returning the first row whose part number,
DEVTYPE and ARCHID all match. -/
def arm_component_lut_lookup :
    List ArmComponent → Nat → Nat → Nat → Option ArmComponent
  | [], _part, _dev, _arch => none
  | c :: rest, part, dev, arch =>
    if c.arch = ArmArch.aend then none
    else if c.part_number = part ∧ c.dev_type = dev ∧ c.arch_id = arch then
      some c
    else arm_component_lut_lookup rest part dev arch

/-- Oracles for one ROM-table walk: `mem32 a` is the 32-bit word the target
returns for a read at address `a` (via `adiv5_mem_read32`), and `err n` the
result of the `n`-th sticky-fault check (`ap->dp->fault` / `adiv5_dp_error`),
consumed in program order. -/
structure ProbeEnv where
  mem32 : Nat → Nat
  err : Nat → Bool

/-- `adiv5_ap_read_id` (adiv5.c lines 306-314): read 16 bytes and assemble
the low byte of each of the four words, LSB first. -/
def adiv5_ap_read_id (env : ProbeEnv) (addr : Nat) : Nat :=
  (env.mem32 addr &&& 0xFF) |||
    ((env.mem32 (addr + 4) &&& 0xFF) <<< 8) |||
    ((env.mem32 (addr + 8) &&& 0xFF) <<< 16) |||
    ((env.mem32 (addr + 12) &&& 0xFF) <<< 24)

/-- `adiv5_ap_read_pidr` (adiv5.c lines 316-321): PIDR4 in the high word,
PIDR0..3 in the low word. -/
def adiv5_ap_read_pidr (env : ProbeEnv) (addr : Nat) : Nat :=
  (adiv5_ap_read_id env (addr + PIDR4_OFFSET) <<< 32) |||
    adiv5_ap_read_id env (addr + PIDR0_OFFSET)

/-- The designer-code decode of `adiv5_component_probe` (adiv5.c lines
486-504): JEP-106 continuation and code re-packed when the "used" flag is
set — with the two known non-compliant codes patched to the STM code — or
the legacy ASCII code marked with `ASCII_CODE_FLAG`. -/
def pidr_designer (pidr : Nat) : Nat :=
  if pidr &&& PIDR_JEP106_USED ≠ 0 then
    let code := (pidr &&& PIDR_JEP106_CONT_MASK) >>>
        (PIDR_JEP106_CONT_OFFSET - 8) |||
      (pidr &&& PIDR_JEP106_CODE_MASK) >>> PIDR_JEP106_CODE_OFFSET
    if code = JEP106_MANUFACTURER_ERRATA_STM32WX ∨
        code = JEP106_MANUFACTURER_ERRATA_CS then
      JEP106_MANUFACTURER_STM
    else code
  else
    (pidr &&& PIDR_JEP106_CODE_MASK) >>> PIDR_JEP106_CODE_OFFSET |||
      ASCII_CODE_FLAG

/-- An observable event of the ROM-table walk: entering the walker on an
address at a recursion depth, issuing an AP memory read of `len` bytes, or
dispatching a probe routine. -/
inductive PEvent where
  | enter (addr rec : Nat)
  | memRead (addr len : Nat)
  | cortexmProbe
  | cortexaProbe (addr : Nat)
  deriving Repr, DecidableEq

/-- `true` on an `enter` event at recursion depth `lvl`. -/
def enterAt (lvl : Nat) : PEvent → Bool
  | PEvent.enter _ r => r == lvl
  | _ => false

/-- An `enter` event never sits in a conditional block of `memRead` events
(the DSU read of the protected-SAMx5x check and the DEVTYPE/DEVARCH reads). -/
@[simp] theorem enter_mem_ite_memRead_one (a r : Nat) (c : Prop)
    [Decidable c] (x l : Nat) :
    (PEvent.enter a r ∈ (if c then [PEvent.memRead x l] else [])) = False := by
  split <;> simp

/-- Companion to `enter_mem_ite_memRead_one` for two-read blocks. -/
@[simp] theorem enter_mem_ite_memRead_two (a r : Nat) (c : Prop)
    [Decidable c] (x l y m : Nat) :
    (PEvent.enter a r ∈ (if c then [PEvent.memRead x l, PEvent.memRead y m]
      else [])) = False := by
  split <;> simp

/-- The ROM-table entry loop of `adiv5_component_probe` (adiv5.c lines
539-558), parametrized by the child walker `child addr num_entry k`.  Per
entry: a clearing `adiv5_dp_error` call, the entry read, the checked
`adiv5_dp_error` call (breaking the loop on fault), break on a zero entry,
skip entries without the PRESENT bit, and recurse into
`base + (entry & ~0xFFF)` (32-bit wrap-around). -/
def adiv5_rom_table_loop (env : ProbeEnv)
    (child : Nat → Nat → Nat → List PEvent × Nat) :
    Nat → Nat → Nat → Nat → List PEvent × Nat
  | 0, _i, _base, k => ([], k)
  | count + 1, i, base, k =>
    let k1 := k + 1
    let entry := env.mem32 (base + i * 4)
    let entryEv := PEvent.memRead (base + i * 4) 4
    if env.err k1 then ([entryEv], k1 + 1)
    else
      let k2 := k1 + 1
      if entry = 0 then ([entryEv], k2)
      else if entry &&& ADIV5_ROM_ROMENTRY_PRESENT = 0 then
        let r := adiv5_rom_table_loop env child count (i + 1) base k2
        (entryEv :: r.1, r.2)
      else
        let c := child ((base + (entry &&& ADIV5_ROM_ROMENTRY_OFFSET)) % 2 ^ 32)
          i k2
        let r := adiv5_rom_table_loop env child count (i + 1) base c.2
        (entryEv :: c.1 ++ r.1, r.2)

/-- The debug-component branch of `adiv5_component_probe` (adiv5.c lines
561-621): non-ARM designers are skipped; for class-0x9 components DEVTYPE
and DEVARCH are read; the component is looked up in `arm_component_lut`,
dispatching `cortexm_probe` or `cortexa_probe` on its architecture. -/
def adiv5_component_probe_dc (env : ProbeEnv) (addr cid_class pidr : Nat) :
    List PEvent :=
  if pidr_designer pidr ≠ JEP106_MANUFACTURER_ARM then []
  else
    let devEvs := if cid_class = cidc_dc then
        [PEvent.memRead (addr + DEVTYPE_OFFSET) 4,
         PEvent.memRead (addr + DEVARCH_OFFSET) 4]
      else []
    let dev_type := if cid_class = cidc_dc then
        env.mem32 (addr + DEVTYPE_OFFSET) &&& DEVTYPE_MASK
      else 0
    let devarch := if cid_class = cidc_dc then
        env.mem32 (addr + DEVARCH_OFFSET)
      else 0
    let arch_id := if cid_class = cidc_dc ∧
        devarch &&& DEVARCH_PRESENT ≠ 0 then
        devarch &&& DEVARCH_ARCHID_MASK
      else 0
    match arm_component_lut_lookup arm_component_lut (pidr &&& PIDR_PN_MASK)
      dev_type arch_id with
    | some comp =>
      match comp.arch with
      | ArmArch.cortexm => devEvs ++ [PEvent.cortexmProbe]
      | ArmArch.cortexa => devEvs ++ [PEvent.cortexaProbe addr]
      | _ => devEvs
    | none => devEvs

/-- The ROM-table branch of `adiv5_component_probe` (adiv5.c lines 516-559):
at depth 0 an Atmel part 0xcd0 has DSU_CTRLSTAT read and, when the PROT bit
is set, the core is probed directly; otherwise the entry loop walks the
table through the `child` walker. -/
def adiv5_component_probe_romtab (env : ProbeEnv)
    (child : Nat → Nat → Nat → List PEvent × Nat)
    (addr rec pidr k2 : Nat) : List PEvent × Nat :=
  let dsuEvs := if rec = 0 ∧
      pidr_designer pidr = JEP106_MANUFACTURER_ATMEL ∧
      pidr &&& PIDR_PN_MASK = 0xcd0 then
      [PEvent.memRead SAMX5X_DSU_CTRLSTAT 4]
    else []
  if rec = 0 ∧ pidr_designer pidr = JEP106_MANUFACTURER_ATMEL ∧
      pidr &&& PIDR_PN_MASK = 0xcd0 ∧
      env.mem32 SAMX5X_DSU_CTRLSTAT &&& SAMX5X_STATUSB_PROT ≠ 0 then
    (dsuEvs ++ [PEvent.cortexmProbe], k2)
  else
    let r := adiv5_rom_table_loop env child 960 0 addr k2
    (dsuEvs ++ r.1, r.2)

/-- `adiv5_component_probe` (adiv5.c lines 446-622): mask the base address,
sanity-check CIDR (with the sticky-fault checks), decode PIDR, and either
walk a ROM table — with the protected-SAMx5x special case at depth 0 — or
look the debug component up in `arm_component_lut` and dispatch its probe
routine.  `fuel` bounds the recursion depth (the C recursion is unbounded);
the second result is the next fault-check index. -/
def adiv5_component_probe (env : ProbeEnv) :
    Nat → Nat → Nat → Nat → Nat → List PEvent × Nat
  | 0, _addr, _rec, _num, k => ([], k)
  | fuel + 1, addr0, rec, _num, k =>
    let addr := addr0 &&& 0xfffff000
    if addr = 0 then ([PEvent.enter addr0 rec], k)
    else
      let cidrEv := PEvent.memRead (addr + CIDR0_OFFSET) 16
      let cidr := adiv5_ap_read_id env (addr + CIDR0_OFFSET)
      if env.err k then ([PEvent.enter addr0 rec, cidrEv], k + 1)
      else
        let k1 := k + 1
        if cidr &&& compl32 CID_CLASS_MASK ≠ CID_PREAMBLE then
          ([PEvent.enter addr0 rec, cidrEv], k1)
        else if env.err k1 then ([PEvent.enter addr0 rec, cidrEv], k1 + 1)
        else
          let k2 := k1 + 1
          let cid_class := (cidr &&& CID_CLASS_MASK) >>> CID_CLASS_SHIFT
          let pidr := adiv5_ap_read_pidr env addr
          let pidrEvs := [PEvent.memRead (addr + PIDR4_OFFSET) 16,
            PEvent.memRead (addr + PIDR0_OFFSET) 16]
          let r := if cid_class = cidc_romtab then
              adiv5_component_probe_romtab env
                (fun a n k' => adiv5_component_probe env fuel a (rec + 1) n k')
                addr rec pidr k2
            else (adiv5_component_probe_dc env addr cid_class pidr, k2)
          (PEvent.enter addr0 rec :: cidrEv :: pidrEvs ++ r.1, r.2)

/-- The recursion targets of one ROM table as claim C6 words them: entries
at `base + 4*i` for `i` up to at most 960, cut at the first zero entry,
keeping only entries with the PRESENT bit, each targeting
`base + (entry & ~0xFFF)` (32-bit). -/
def rom_table_spec_children (env : ProbeEnv) (base : Nat) : List Nat :=
  ((((List.range 960).map (fun i => env.mem32 (base + 4 * i))).takeWhile
      (fun e => e ≠ 0)).filter
    (fun e => e &&& ADIV5_ROM_ROMENTRY_PRESENT ≠ 0)).map
    (fun e => (base + (e &&& ADIV5_ROM_ROMENTRY_OFFSET)) % 2 ^ 32)

/-- Every event the ROM-table entry loop emits is an entry read or comes from
some child call. -/
theorem adiv5_rom_table_loop_mem_child (env : ProbeEnv)
    (child : Nat → Nat → Nat → List PEvent × Nat) :
    ∀ count i base k e,
      e ∈ (adiv5_rom_table_loop env child count i base k).1 →
      (∃ a n k', e ∈ (child a n k').1) ∨ ∃ a l, e = PEvent.memRead a l := by
  intro count
  induction count with
  | zero =>
    intro i base k e h
    simp [adiv5_rom_table_loop] at h
  | succ count ih =>
    intro i base k e h
    simp only [adiv5_rom_table_loop] at h
    by_cases he : env.err (k + 1)
    · simp only [he, if_true, List.mem_singleton] at h
      exact Or.inr ⟨_, _, h⟩
    · simp only [he, Bool.false_eq_true, if_false] at h
      by_cases hz : env.mem32 (base + i * 4) = 0
      · rw [if_pos hz] at h
        simp only [List.mem_singleton] at h
        exact Or.inr ⟨_, _, by rw [h]⟩
      · simp only [hz, if_false] at h
        by_cases hp : env.mem32 (base + i * 4) &&&
            ADIV5_ROM_ROMENTRY_PRESENT = 0
        · simp only [if_pos hp] at h
          rcases List.mem_cons.mp h with h1 | h2
          · exact Or.inr ⟨_, _, h1⟩
          · exact ih _ _ _ _ h2
        · simp only [if_neg hp, List.cons_append] at h
          rcases List.mem_cons.mp h with h1 | h2
          · exact Or.inr ⟨_, _, h1⟩
          · rcases List.mem_append.mp h2 with h3 | h4
            · exact Or.inl ⟨_, _, _, h3⟩
            · exact ih _ _ _ _ h4

/-- The debug-component branch never emits an `enter` event. -/
theorem adiv5_component_probe_dc_no_enter (env : ProbeEnv)
    (addr cid_class pidr a r : Nat) :
    PEvent.enter a r ∉ adiv5_component_probe_dc env addr cid_class pidr := by
  intro h
  simp only [adiv5_component_probe_dc] at h
  repeat' split at h
  all_goals simp at h

/-- Any `enter` event of the ROM-table branch comes from the entry loop. -/
theorem adiv5_component_probe_romtab_enter (env : ProbeEnv)
    (child : Nat → Nat → Nat → List PEvent × Nat) (addr rec pidr k2 a r : Nat)
    (h : PEvent.enter a r ∈
      (adiv5_component_probe_romtab env child addr rec pidr k2).1) :
    PEvent.enter a r ∈ (adiv5_rom_table_loop env child 960 0 addr k2).1 := by
  simp only [adiv5_component_probe_romtab] at h
  repeat' split at h
  all_goals simp_all

/-- Shape of a walker call with positive fuel: exactly one `enter` event at
its own depth — the head — with every deeper `enter` event strictly below. -/
theorem adiv5_component_probe_shape (env : ProbeEnv) :
    ∀ fuel, 1 ≤ fuel → ∀ addr rec num k, ∃ tail,
      (adiv5_component_probe env fuel addr rec num k).1 =
        PEvent.enter addr rec :: tail ∧
      ∀ a r, PEvent.enter a r ∈ tail → rec + 1 ≤ r := by
  intro fuel
  induction fuel using Nat.strong_induction_on with
  | _ fuel ih =>
    intro hf addr rec num k
    obtain ⟨f, rfl⟩ : ∃ f, fuel = f + 1 := ⟨fuel - 1, by omega⟩
    simp only [adiv5_component_probe]
    by_cases c1 : addr &&& 0xfffff000 = 0
    · rw [if_pos c1]
      exact ⟨[], rfl, fun a r hmem => by simp at hmem⟩
    · rw [if_neg c1]
      by_cases c2 : env.err k = true
      · rw [if_pos c2]
        exact ⟨_, rfl, fun a r hmem => by simp at hmem⟩
      · rw [if_neg c2]
        by_cases c3 : adiv5_ap_read_id env
            ((addr &&& 0xfffff000) + CIDR0_OFFSET) &&&
            compl32 CID_CLASS_MASK ≠ CID_PREAMBLE
        · rw [if_pos c3]
          exact ⟨_, rfl, fun a r hmem => by simp at hmem⟩
        · rw [if_neg c3]
          by_cases c4 : env.err (k + 1) = true
          · rw [if_pos c4]
            exact ⟨_, rfl, fun a r hmem => by simp at hmem⟩
          · rw [if_neg c4]
            by_cases c5 : (adiv5_ap_read_id env
                ((addr &&& 0xfffff000) + CIDR0_OFFSET) &&&
                CID_CLASS_MASK) >>> CID_CLASS_SHIFT = cidc_romtab
            · rw [if_pos c5]
              refine ⟨_, rfl, ?_⟩
              intro a r hmem
              simp only [List.append_eq, List.cons_append, List.nil_append,
                List.mem_cons, List.mem_append] at hmem
              rcases hmem with h1 | h1 | h1 | h1
              · exact PEvent.noConfusion h1
              · exact PEvent.noConfusion h1
              · exact PEvent.noConfusion h1
              · have h2 := adiv5_component_probe_romtab_enter env _ _ _ _ _
                  a r h1
                rcases adiv5_rom_table_loop_mem_child env _ _ _ _ _ _ h2 with
                  ⟨a', n', k', hm⟩ | ⟨x, l, heq⟩
                · by_cases hf0 : f = 0
                  · subst hf0
                    simp [adiv5_component_probe] at hm
                  · obtain ⟨tail', heq2, hprop⟩ := ih f (by omega) (by omega)
                      a' (rec + 1) n' k'
                    rw [heq2] at hm
                    rcases List.mem_cons.mp hm with he | hm'
                    · obtain ⟨-, rfl⟩ : a = a' ∧ r = rec + 1 := by
                        simpa [PEvent.enter.injEq] using he
                      exact Nat.le_refl _
                    · have := hprop a r hm'
                      omega
                · cases heq
            · rw [if_neg c5]
              refine ⟨_, rfl, ?_⟩
              intro a r hmem
              simp only [List.append_eq, List.cons_append, List.nil_append,
                List.mem_cons, List.mem_append] at hmem
              rcases hmem with h1 | h1 | h1 | h1
              · exact PEvent.noConfusion h1
              · exact PEvent.noConfusion h1
              · exact PEvent.noConfusion h1
              · exact absurd h1
                  (adiv5_component_probe_dc_no_enter env _ _ _ a r)

/-- Every `enter` event of the walker sits at the recursion depth it was
called with or deeper. -/
theorem adiv5_component_probe_enter_levels (env : ProbeEnv) :
    ∀ fuel addr rec num k a r,
      PEvent.enter a r ∈ (adiv5_component_probe env fuel addr rec num k).1 →
      rec ≤ r := by
  intro fuel
  cases fuel with
  | zero =>
    intro addr rec num k a r h
    simp [adiv5_component_probe] at h
  | succ fuel =>
    intro addr rec num k a r h
    obtain ⟨tail, heq, hprop⟩ :=
      adiv5_component_probe_shape env (fuel + 1) (by omega) addr rec num k
    rw [heq] at h
    rcases List.mem_cons.mp h with he | hm
    · obtain ⟨-, rfl⟩ : a = addr ∧ r = rec := by
        simpa [PEvent.enter.injEq] using he
      exact Nat.le_refl _
    · have := hprop a r hm
      omega

/-- A walker call with positive fuel contributes exactly one `enter` event at
its own depth: its head. -/
theorem adiv5_component_probe_filter_self (env : ProbeEnv) :
    ∀ fuel addr rec num k, 1 ≤ fuel →
      ((adiv5_component_probe env fuel addr rec num k).1.filter
        (enterAt rec)) = [PEvent.enter addr rec] := by
  intro fuel addr rec num k hf
  obtain ⟨tail, heq, hprop⟩ :=
    adiv5_component_probe_shape env fuel hf addr rec num k
  rw [heq, List.filter_cons_of_pos (by simp [enterAt])]
  rw [List.filter_eq_nil_iff.mpr ?hnil]
  case hnil =>
    intro e he
    cases e with
    | enter a2 r2 =>
      have := hprop a2 r2 he
      simp only [enterAt]
      intro hcon
      have : r2 = rec := by simpa using hcon
      omega
    | memRead a2 l2 => simp [enterAt]
    | cortexmProbe => simp [enterAt]
    | cortexaProbe a2 => simp [enterAt]

/-- The `enter` events the entry loop contributes at the child depth are
exactly the claim's list: entries read in order, cut at the first zero,
filtered by PRESENT, each recursed into at `base + (entry & ~0xFFF)`. -/
theorem adiv5_rom_table_loop_children (env : ProbeEnv)
    (child : Nat → Nat → Nat → List PEvent × Nat) (lvl : Nat)
    (hchild : ∀ a n k, ((child a n k).1.filter (enterAt lvl)) =
      [PEvent.enter a lvl])
    (hE : ∀ n, env.err n = false) :
    ∀ count i base k,
      ((adiv5_rom_table_loop env child count i base k).1.filter
          (enterAt lvl)) =
        ((((List.range' i count).map
              (fun j => env.mem32 (base + 4 * j))).takeWhile
            (fun e => e ≠ 0)).filter
          (fun e => e &&& ADIV5_ROM_ROMENTRY_PRESENT ≠ 0)).map
          (fun e => PEvent.enter
            ((base + (e &&& ADIV5_ROM_ROMENTRY_OFFSET)) % 2 ^ 32) lvl) := by
  intro count
  induction count with
  | zero =>
    intro i base k
    simp [adiv5_rom_table_loop]
  | succ count ih =>
    intro i base k
    rw [List.range'_succ]
    simp only [List.map_cons, List.takeWhile_cons]
    have hmc : base + 4 * i = base + i * 4 := by ring
    rw [hmc]
    by_cases hz : env.mem32 (base + i * 4) = 0
    · have hLHS : (adiv5_rom_table_loop env child (count + 1) i base k).1 =
          [PEvent.memRead (base + i * 4) 4] := by
        simp [adiv5_rom_table_loop, hE, hz]
      rw [hLHS, if_neg (by simp [hz])]
      simp [enterAt]
    · rw [if_pos (by simp [hz])]
      by_cases hp : env.mem32 (base + i * 4) &&&
          ADIV5_ROM_ROMENTRY_PRESENT = 0
      · have hLHS : (adiv5_rom_table_loop env child (count + 1) i base k).1 =
            PEvent.memRead (base + i * 4) 4 ::
              (adiv5_rom_table_loop env child count (i + 1) base
                (k + 1 + 1)).1 := by
          simp [adiv5_rom_table_loop, hE, hz, hp]
        rw [hLHS, List.filter_cons_of_neg (by simp [enterAt]),
          List.filter_cons_of_neg (by simp [hp]), ih]
      · have hLHS : (adiv5_rom_table_loop env child (count + 1) i base k).1 =
            PEvent.memRead (base + i * 4) 4 ::
              (child ((base + (env.mem32 (base + i * 4) &&&
                  ADIV5_ROM_ROMENTRY_OFFSET)) % 2 ^ 32) i (k + 1 + 1)).1 ++
                (adiv5_rom_table_loop env child count (i + 1) base
                  (child ((base + (env.mem32 (base + i * 4) &&&
                    ADIV5_ROM_ROMENTRY_OFFSET)) % 2 ^ 32) i
                    (k + 1 + 1)).2).1 := by
          simp [adiv5_rom_table_loop, hE, hz, hp]
        rw [hLHS, List.filter_append,
          List.filter_cons_of_neg (by simp [enterAt]), hchild,
          List.filter_cons_of_pos (by simp [hp]), List.map_cons, ih]
        rfl

/-- C6: when the walker meets a component of class ROM table (outside the
protected-SAMx5x special case and with no sticky fault latched), the direct
recursion targets — the `enter` events at depth `rec + 1` — are exactly the
entries at `base + 4*i` for `i` up to 960, cut at the first zero entry,
restricted to entries with the PRESENT bit, each recursed into at
`base + (entry & ~0xFFF)` with the recursion depth incremented. -/
theorem C6_rom_table_children (env : ProbeEnv) (fuel addr0 rec num k : Nat)
    (hE : ∀ n, env.err n = false)
    (hbase : ¬(addr0 &&& 0xfffff000 = 0))
    (hpre : adiv5_ap_read_id env ((addr0 &&& 0xfffff000) + CIDR0_OFFSET) &&&
        compl32 CID_CLASS_MASK = CID_PREAMBLE)
    (hcls : (adiv5_ap_read_id env ((addr0 &&& 0xfffff000) + CIDR0_OFFSET) &&&
        CID_CLASS_MASK) >>> CID_CLASS_SHIFT = cidc_romtab)
    (hspecial : ¬(rec = 0 ∧
        pidr_designer (adiv5_ap_read_pidr env (addr0 &&& 0xfffff000)) =
          JEP106_MANUFACTURER_ATMEL ∧
        adiv5_ap_read_pidr env (addr0 &&& 0xfffff000) &&& PIDR_PN_MASK =
          0xcd0 ∧
        env.mem32 SAMX5X_DSU_CTRLSTAT &&& SAMX5X_STATUSB_PROT ≠ 0)) :
    2 ≤ fuel →
    ((adiv5_component_probe env fuel addr0 rec num k).1.filter
        (enterAt (rec + 1))) =
      (rom_table_spec_children env (addr0 &&& 0xfffff000)).map
        (fun a => PEvent.enter a (rec + 1)) := by
  intro hfuel
  obtain ⟨f, rfl⟩ : ∃ f, fuel = f + 1 := ⟨fuel - 1, by omega⟩
  have hpre' : ¬(adiv5_ap_read_id env ((addr0 &&& 0xfffff000) + CIDR0_OFFSET)
      &&& compl32 CID_CLASS_MASK ≠ CID_PREAMBLE) := by
    simpa using hpre
  have hLHS : (adiv5_component_probe env (f + 1) addr0 rec num k).1 =
      PEvent.enter addr0 rec ::
        PEvent.memRead ((addr0 &&& 0xfffff000) + CIDR0_OFFSET) 16 ::
        [PEvent.memRead ((addr0 &&& 0xfffff000) + PIDR4_OFFSET) 16,
         PEvent.memRead ((addr0 &&& 0xfffff000) + PIDR0_OFFSET) 16] ++
        (if rec = 0 ∧
            pidr_designer (adiv5_ap_read_pidr env (addr0 &&& 0xfffff000)) =
              JEP106_MANUFACTURER_ATMEL ∧
            adiv5_ap_read_pidr env (addr0 &&& 0xfffff000) &&& PIDR_PN_MASK =
              0xcd0 then
          [PEvent.memRead SAMX5X_DSU_CTRLSTAT 4]
         else []) ++
        (adiv5_rom_table_loop env
          (fun a n k' => adiv5_component_probe env f a (rec + 1) n k')
          960 0 (addr0 &&& 0xfffff000) (k + 1 + 1)).1 := by
    simp only [adiv5_component_probe, adiv5_component_probe_romtab,
      if_neg hbase, hE, Bool.false_eq_true, if_false, if_neg hpre',
      if_pos hcls, if_neg hspecial, List.append_assoc]
  rw [hLHS]
  simp only [List.filter_append]
  rw [show List.filter (enterAt (rec + 1))
      [PEvent.enter addr0 rec,
       PEvent.memRead ((addr0 &&& 0xfffff000) + CIDR0_OFFSET) 16,
       PEvent.memRead ((addr0 &&& 0xfffff000) + PIDR4_OFFSET) 16,
       PEvent.memRead ((addr0 &&& 0xfffff000) + PIDR0_OFFSET) 16] = []
    from by simp [enterAt]]
  rw [show List.filter (enterAt (rec + 1))
      (if rec = 0 ∧
          pidr_designer (adiv5_ap_read_pidr env (addr0 &&& 0xfffff000)) =
            JEP106_MANUFACTURER_ATMEL ∧
          adiv5_ap_read_pidr env (addr0 &&& 0xfffff000) &&& PIDR_PN_MASK =
            0xcd0 then
        [PEvent.memRead SAMX5X_DSU_CTRLSTAT 4]
       else []) = []
    from by split <;> simp [enterAt]]
  simp only [List.nil_append]
  rw [adiv5_rom_table_loop_children env _ (rec + 1)
    (fun a n k' => adiv5_component_probe_filter_self env f a
      (rec + 1) n k' (by omega)) hE 960 0 (addr0 &&& 0xfffff000) _]
  simp only [rom_table_spec_children, List.range_eq_range', List.map_map]
  rfl

/-- A concrete one-level ROM table at `0x1000`: CIDR reads give the ROM-table
class preamble, entry 0 is present with offset `0x2000`, entry 1 lacks the
PRESENT bit, entry 2 is zero. -/
def romTestEnv : ProbeEnv :=
  ⟨fun a =>
    if a = 0x1FF0 then 0x0D else if a = 0x1FF4 then 0x10
    else if a = 0x1FF8 then 0x05 else if a = 0x1FFC then 0xB1
    else if a = 0x1000 then 0x2001 else if a = 0x1004 then 0x4000
    else 0, fun _ => false⟩

/-- Witness for C6: on `romTestEnv` the walker's depth-1 recursion targets
are exactly the spec children of the table at `0x1000`. -/
theorem C6_rom_table_witness :
    ((adiv5_component_probe romTestEnv 2 0x1000 0 0 0).1.filter
        (enterAt (0 + 1))) =
      (rom_table_spec_children romTestEnv (0x1000 &&& 0xfffff000)).map
        (fun a => PEvent.enter a (0 + 1)) :=
  C6_rom_table_children romTestEnv 2 0x1000 0 0 0 (fun _ => rfl) (by decide)
    (by decide) (by decide) (by decide) (by decide)

/-! ## `adiv5_dp_init` (adiv5.c lines 684-882) and the SELECT bank discipline -/

/-- Modelled from the spec: `adiv5.h` absent; DPIDR version field (spec §4.1
step 2: bits 12-15). -/
def ADIV5_DP_DPIDR_VERSION_MASK : Nat := 0xf000

/-- Modelled from the spec: `adiv5.h` absent; DPIDR version field offset. -/
def ADIV5_DP_DPIDR_VERSION_OFFSET : Nat := 12

/-- Modelled from the spec: `adiv5.h` absent; DPIDR designer field (spec §4.1
step 2: bits 1-11). -/
def ADIV5_DP_DPIDR_DESIGNER_MASK : Nat := 0xffe

/-- Modelled from the spec: `adiv5.h` absent; DPIDR designer field offset. -/
def ADIV5_DP_DPIDR_DESIGNER_OFFSET : Nat := 1

/-- Modelled from the spec: `adiv5.h` absent; DPIDR part-number field (spec
§4.1 step 2: bits 16-23). -/
def ADIV5_DP_DPIDR_PARTNO_MASK : Nat := 0xff0000

/-- Modelled from the spec: `adiv5.h` absent; DPIDR part-number offset. -/
def ADIV5_DP_DPIDR_PARTNO_OFFSET : Nat := 16

/-- Modelled from the spec: `adiv5.h` absent; DPIDR MINDP flag (spec §4.1
step 2: bit 16). -/
def ADIV5_DP_DPIDR_MINDP : Nat := 1 <<< 16

/-- Modelled from the spec: `adiv5.h` absent; JEP-106 continuation bits of an
11-bit designer field (spec §4.1 step 2: re-packed as continuation<<7|code,
the code shifts this mask left by one). -/
def ADIV5_DP_DESIGNER_JEP106_CONT_MASK : Nat := 0x780

/-- Modelled from the spec: `adiv5.h` absent; JEP-106 identity-code bits of
an 11-bit designer field. -/
def ADIV5_DP_DESIGNER_JEP106_CODE_MASK : Nat := 0x7f

/-- Modelled from the spec: `adiv5.h` absent; the legacy DP v0 JTAG IDCODE
of spec §4.1 step 1 (architectural value). -/
def JTAG_IDCODE_ARM_DPv0 : Nat := 0x4ba00477

/-- Modelled from the spec: `adiv5.h` absent; CTRL/STAT system power-up
request (spec §4.1 step 6; architectural bit 30). -/
def ADIV5_DP_CTRLSTAT_CSYSPWRUPREQ : Nat := 1 <<< 30

/-- Modelled from the spec: `adiv5.h` absent; CTRL/STAT system power-up
acknowledge (architectural bit 31). -/
def ADIV5_DP_CTRLSTAT_CSYSPWRUPACK : Nat := 1 <<< 31

/-- Modelled from the spec: `adiv5.h` absent; CTRL/STAT debug power-up
request (architectural bit 28). -/
def ADIV5_DP_CTRLSTAT_CDBGPWRUPREQ : Nat := 1 <<< 28

/-- Modelled from the spec: `adiv5.h` absent; CTRL/STAT debug power-up
acknowledge (architectural bit 29). -/
def ADIV5_DP_CTRLSTAT_CDBGPWRUPACK : Nat := 1 <<< 29

/-- Modelled from the spec: `adiv5.h` absent; CTRL/STAT debug reset request
(spec §4.1 step 7; architectural bit 26). -/
def ADIV5_DP_CTRLSTAT_CDBGRSTREQ : Nat := 1 <<< 26

/-- Modelled from the spec: `adiv5.h` absent; CTRL/STAT debug reset
acknowledge (architectural bit 27). -/
def ADIV5_DP_CTRLSTAT_CDBGRSTACK : Nat := 1 <<< 27

/-- Modelled from the spec: `adiv5.h` absent; the ABORT register DAPABORT
bit (spec §4.1 step 5 and abort policy; architectural bit 0). -/
def ADIV5_DP_ABORT_DAPABORT : Nat := 1

/-- Modelled from the spec: `cortexm.h` absent; DEMCR TRCENA (spec §5 CM
step 3; architectural bit 24). -/
def CORTEXM_DEMCR_TRCENA : Nat := 1 <<< 24

/-- Modelled from the spec: `cortexm.h` absent; DEMCR VC_HARDERR
(architectural bit 10). -/
def CORTEXM_DEMCR_VC_HARDERR : Nat := 1 <<< 10

/-- Modelled from the spec: `cortexm.h` absent; DEMCR VC_CORERESET
(architectural bit 0). -/
def CORTEXM_DEMCR_VC_CORERESET : Nat := 1

/-- The DP identification fields `adiv5_dp_init` decodes from DPIDR. -/
structure DpIdFields where
  version : Nat
  designer_code : Nat
  partno : Nat
  mindp : Bool
  deriving Repr, DecidableEq

/-- The DPIDR decode of `adiv5_dp_init` (adiv5.c lines 706-739): extract the
version; when the version is positive and bit 0 is set, re-pack the designer
as JEP-106 continuation/code, extract part number and MINDP, and downgrade
to DP v0 when the designer decodes to zero. -/
def adiv5_dpidr_decode (dpidr : Nat) : DpIdFields :=
  let version := (dpidr &&& ADIV5_DP_DPIDR_VERSION_MASK) >>>
    ADIV5_DP_DPIDR_VERSION_OFFSET
  if 0 < version ∧ dpidr &&& 1 ≠ 0 then
    let designer := (dpidr &&& ADIV5_DP_DPIDR_DESIGNER_MASK) >>>
      ADIV5_DP_DPIDR_DESIGNER_OFFSET
    let designer_code :=
      ((designer &&& ADIV5_DP_DESIGNER_JEP106_CONT_MASK) <<< 1) |||
        (designer &&& ADIV5_DP_DESIGNER_JEP106_CODE_MASK)
    if designer_code ≠ 0 then
      { version := version, designer_code := designer_code,
        partno := (dpidr &&& ADIV5_DP_DPIDR_PARTNO_MASK) >>>
          ADIV5_DP_DPIDR_PARTNO_OFFSET,
        mindp := dpidr &&& ADIV5_DP_DPIDR_MINDP ≠ 0 }
    else
      { version := 0, designer_code := 0, partno := 0, mindp := false }
  else
    { version := version, designer_code := 0, partno := 0, mindp := false }

/-- Modelled from the spec (§2 data flow, §4.1 step 8, §4.2 contract): the
family probe routines of `adiv5_dp_init` that live outside this repository
slice (`kinetis_mdm_probe`, `nrf51_mdm_probe`, `efm32_aap_probe`,
`cortexm_probe`, `cortexa_probe`, `rp_rescue_probe`, `target_halt_resume`)
reach the target only through the engine's AP register and memory
primitives; one such call is an `EngineCall`. -/
inductive EngineCall where
  /-- `adiv5_ap_read(ap, reg)` of a banked AP register -/
  | apRead (addr : Nat)
  /-- `adiv5_ap_write(ap, reg, v)` of a banked AP register -/
  | apWrite (addr v : Nat)
  /-- `adiv5_mem_read(ap, buf, src, len)` -/
  | memRead (src len : Nat)
  /-- `adiv5_mem_write(ap, dest, buf, len)` -/
  | memWrite (dest len : Nat)
  deriving Repr, DecidableEq

/-- Compile one engine call to its DP transcript.  AP register addresses
carry the `ADIV5_APnDP` flag (as every `ADIV5_AP_*` constant does), so an AP
register write can never alias the DP SELECT register. -/
def compileEngineCall (ap : ADIv5_AP) : EngineCall → List DpOp
  | EngineCall.apRead addr => firmware_ap_read ap (ADIV5_APnDP ||| addr)
  | EngineCall.apWrite addr v =>
    firmware_ap_write ap (ADIV5_APnDP ||| addr) v
  | EngineCall.memRead src len => (firmware_mem_read (fun _ => 0) ap src len).1
  | EngineCall.memWrite dest len => adiv5_mem_write (fun _ => 0) ap dest len

/-- Compile a list of engine calls, each tagged with the `apsel` of the AP it
goes through. -/
def compileTaggedCalls : List (Nat × EngineCall) → List DpOp
  | [] => []
  | (s, c) :: cs => compileEngineCall ⟨s, 0, 0, 0⟩ c ++ compileTaggedCalls cs

/-- Whether one DP operation keeps the SELECT DP-bank nibble at zero: any
write of SELECT must carry bank 0 in its low four bits; reads and writes of
other registers are unconstrained. -/
def dp_op_select_safe : DpOp → Bool
  | DpOp.dpWrite a v => decide (a = ADIV5_DP_SELECT → v &&& 0xF = 0)
  | DpOp.lowWrite a v => decide (a = ADIV5_DP_SELECT → v &&& 0xF = 0)
  | _ => true

/-- The SELECT value of an engine AP access always has a zero DP-bank
nibble. -/
theorem select_value_bank0 (apsel addr : Nat) :
    ((apsel <<< 24) ||| (addr &&& 0xF0)) &&& 0xF = 0 := by
  rw [Nat.and_distrib_right]
  have h1 : (apsel <<< 24) &&& 0xF = 0 := by
    have hmod := Nat.and_pow_two_sub_one_eq_mod (apsel <<< 24) 4
    norm_num at hmod
    rw [hmod, Nat.shiftLeft_eq]
    have h : apsel * 2 ^ 24 = apsel * 2 ^ 20 * 16 := by ring
    rw [h, Nat.mul_mod_left]
  have h2 : (addr &&& 0xF0) &&& 0xF = 0 := by
    rw [Nat.and_assoc, (by decide : (0xF0 &&& 0xF : Nat) = 0), Nat.and_zero]
  rw [h1, h2]
  decide

/-- AP register addresses carrying the `ADIV5_APnDP` flag never alias DP
SELECT. -/
theorem apndp_or_ne_select (x : Nat) : ADIV5_APnDP ||| x ≠ ADIV5_DP_SELECT := by
  intro h
  have h2 : (ADIV5_APnDP ||| x).testBit 8 =
      (ADIV5_DP_SELECT : Nat).testBit 8 := by rw [h]
  rw [Nat.testBit_or] at h2
  have h3 : (ADIV5_APnDP : Nat).testBit 8 = true := by decide
  have h4 : (ADIV5_DP_SELECT : Nat).testBit 8 = false := by decide
  rw [h3, h4] at h2
  simp at h2

/-- `firmware_ap_read` only issues a bank-0 SELECT write and a read. -/
theorem firmware_ap_read_select_safe (ap : ADIv5_AP) (addr : Nat) :
    (firmware_ap_read ap addr).all dp_op_select_safe = true := by
  simp [firmware_ap_read, dp_op_select_safe, select_value_bank0]

/-- `firmware_ap_write` of a register other than SELECT only issues bank-0
SELECT writes. -/
theorem firmware_ap_write_select_safe (ap : ADIv5_AP) (addr v : Nat)
    (h : addr ≠ ADIV5_DP_SELECT) :
    (firmware_ap_write ap addr v).all dp_op_select_safe = true := by
  simp [firmware_ap_write, dp_op_select_safe, select_value_bank0, h]

/-- The CSW/TAR programming of a transfer never touches the SELECT bank. -/
theorem ap_mem_access_setup_select_safe (ap : ADIv5_AP) (addr align : Nat) :
    (ap_mem_access_setup ap addr align).all dp_op_select_safe = true := by
  simp [ap_mem_access_setup, firmware_ap_write, dp_op_select_safe,
    select_value_bank0, ADIV5_AP_CSW, ADIV5_AP_TAR, ADIV5_APnDP,
    ADIV5_DP_SELECT]

/-- The read transfer loop only issues DRW reads and TAR writes. -/
theorem firmware_mem_read_loop_select_safe (vals : Nat → Nat) (align : Nat) :
    ∀ n src osrc k,
      ((firmware_mem_read_loop vals align n src osrc k).ops.all
        dp_op_select_safe) = true := by
  intro n
  induction n using Nat.strong_induction_on with
  | _ n ih =>
    intro src osrc k
    match n, ih with
    | 0, _ => rfl
    | 1, _ => rfl
    | n + 2, ih =>
      simp only [firmware_mem_read_loop]
      split
      · simp [dp_op_select_safe, ADIV5_AP_TAR, ADIV5_AP_DRW, ADIV5_APnDP,
          ADIV5_DP_SELECT, ih (n + 1) (by omega)]
      · simp [dp_op_select_safe, ADIV5_AP_DRW, ADIV5_APnDP, ADIV5_DP_SELECT,
          ih (n + 1) (by omega)]

/-- A full memory read never touches the SELECT bank. -/
theorem firmware_mem_read_select_safe (vals : Nat → Nat) (ap : ADIv5_AP)
    (src len : Nat) :
    ((firmware_mem_read vals ap src len).1.all dp_op_select_safe) = true := by
  simp only [firmware_mem_read]
  split
  · rfl
  · simp [List.all_append, ap_mem_access_setup_select_safe,
      firmware_mem_read_loop_select_safe, dp_op_select_safe, ADIV5_AP_DRW,
      ADIV5_DP_RDBUFF, ADIV5_APnDP, ADIV5_DP_SELECT]

/-- The write transfer loop only issues DRW and TAR writes. -/
theorem firmware_mem_write_loop_select_safe (srcB : Nat → Nat) (align : Nat) :
    ∀ n j dest odest,
      ((firmware_mem_write_loop srcB align n j dest odest).all
        dp_op_select_safe) = true := by
  intro n
  induction n with
  | zero => intro j dest odest; rfl
  | succ n ih =>
    intro j dest odest
    simp only [firmware_mem_write_loop]
    split
    · simp [dp_op_select_safe, ADIV5_AP_TAR, ADIV5_AP_DRW, ADIV5_APnDP,
        ADIV5_DP_SELECT, ih]
    · simp [dp_op_select_safe, ADIV5_AP_DRW, ADIV5_APnDP, ADIV5_DP_SELECT, ih]

/-- A full sized memory write never touches the SELECT bank. -/
theorem firmware_mem_write_sized_select_safe (srcB : Nat → Nat)
    (ap : ADIv5_AP) (dest len align : Nat) :
    ((firmware_mem_write_sized srcB ap dest len align).all
      dp_op_select_safe) = true := by
  simp [firmware_mem_write_sized, List.all_append,
    ap_mem_access_setup_select_safe, firmware_mem_write_loop_select_safe,
    dp_op_select_safe]

/-- `adiv5_mem_write` never touches the SELECT bank. -/
theorem adiv5_mem_write_select_safe (srcB : Nat → Nat) (ap : ADIv5_AP)
    (dest len : Nat) :
    ((adiv5_mem_write srcB ap dest len).all dp_op_select_safe) = true :=
  firmware_mem_write_sized_select_safe srcB ap dest len _

/-- One halt-loop iteration never touches the SELECT bank. -/
theorem cortexm_initial_halt_iter_ops_select_safe (env : HaltEnv)
    (ap : ADIv5_AP) (useLow : Bool) (n trncnt : Nat) :
    ((cortexm_initial_halt_iter_ops env ap useLow n trncnt).all
      dp_op_select_safe) = true := by
  simp only [cortexm_initial_halt_iter_ops]
  split
  · simp [dp_op_select_safe, ADIV5_DP_CTRLSTAT, ADIV5_AP_DRW, ADIV5_APnDP,
      ADIV5_DP_SELECT]
  · simp [List.all_append, adiv5_mem_write_select_safe,
      firmware_mem_read_select_safe]

/-- The halt sampling loop never touches the SELECT bank. -/
theorem cortexm_initial_halt_loop_select_safe (env : HaltEnv) (ap : ADIv5_AP)
    (useLow can : Bool) :
    ∀ fuel n trncnt resetSeen,
      ((cortexm_initial_halt_loop env ap useLow can fuel n trncnt
          resetSeen).2.all dp_op_select_safe) = true := by
  intro fuel
  induction fuel with
  | zero => intro n trncnt resetSeen; rfl
  | succ fuel ih =>
    intro n trncnt resetSeen
    simp only [cortexm_initial_halt_loop]
    repeat' split
    all_goals
      simp [List.all_append, cortexm_initial_halt_iter_ops_select_safe, ih]

/-- `cortexm_initial_halt` never touches the SELECT bank. -/
theorem cortexm_initial_halt_select_safe (env : HaltEnv) (ap : ADIv5_AP)
    (mindp can : Bool) (fuel : Nat) :
    ((cortexm_initial_halt env ap mindp can fuel).2.all
      dp_op_select_safe) = true := by
  cases mindp with
  | true =>
    simp [cortexm_initial_halt, dp_op_select_safe, ADIV5_DP_CTRLSTAT,
      ADIV5_DP_SELECT, List.all_append, cortexm_initial_halt_loop_select_safe]
  | false =>
    simp [cortexm_initial_halt, firmware_ap_write, select_value_bank0,
      dp_op_select_safe, ADIV5_DP_CTRLSTAT, ADIV5_DP_SELECT, ADIV5_AP_CSW,
      ADIV5_AP_TAR, ADIV5_APnDP, List.all_append,
      cortexm_initial_halt_loop_select_safe]

/-- Every compiled engine call is SELECT-bank safe. -/
theorem compileEngineCall_select_safe (ap : ADIv5_AP) (c : EngineCall) :
    (compileEngineCall ap c).all dp_op_select_safe = true := by
  cases c with
  | apRead addr => exact firmware_ap_read_select_safe ap _
  | apWrite addr v =>
    exact firmware_ap_write_select_safe ap _ v (apndp_or_ne_select addr)
  | memRead src len => exact firmware_mem_read_select_safe _ ap src len
  | memWrite dest len => exact adiv5_mem_write_select_safe _ ap dest len

/-- Every compiled tagged call list is SELECT-bank safe. -/
theorem compileTaggedCalls_select_safe :
    ∀ cs, (compileTaggedCalls cs).all dp_op_select_safe = true := by
  intro cs
  induction cs with
  | nil => rfl
  | cons c cs ih =>
    obtain ⟨s, c⟩ := c
    simp [compileTaggedCalls, List.all_append, compileEngineCall_select_safe,
      ih]

/-- Compile the walker's events to DP operations: a memory read becomes the
engine transfer of that address and length, a dispatched probe routine
(`cortexm_probe`/`cortexa_probe`) consumes the next tagged engine-call list
of the `ext` oracle; `enter` markers issue no traffic of their own. -/
def compilePEvents (ext : Nat → List (Nat × EngineCall)) (ap : ADIv5_AP) :
    List PEvent → Nat → List DpOp × Nat
  | [], c => ([], c)
  | PEvent.enter _ _ :: es, c => compilePEvents ext ap es c
  | PEvent.memRead a l :: es, c =>
    let r := compilePEvents ext ap es c
    ((firmware_mem_read (fun _ => 0) ap a l).1 ++ r.1, r.2)
  | PEvent.cortexmProbe :: es, c =>
    let r := compilePEvents ext ap es (c + 1)
    (compileTaggedCalls (ext c) ++ r.1, r.2)
  | PEvent.cortexaProbe _ :: es, c =>
    let r := compilePEvents ext ap es (c + 1)
    (compileTaggedCalls (ext c) ++ r.1, r.2)

/-- The AP register reads `adiv5_new_ap` issues (adiv5.c lines 624-668): IDR
and BASE always, CSW only when the base-sentinel and IDR checks pass (the
`ENABLE_DEBUG`-only CFG read is compiled out on this platform). -/
def adiv5_new_ap_ops (env : EnumEnv) (apsel : Nat) : List DpOp :=
  let tmp : ADIv5_AP := ⟨apsel, 0, 0, 0⟩
  firmware_ap_read tmp ADIV5_AP_IDR ++ firmware_ap_read tmp ADIV5_AP_BASE ++
    (if (env.regs apsel).base = 0xffffffff ∨ (env.regs apsel).idr = 0 then []
     else firmware_ap_read tmp ADIV5_AP_CSW)

/-- The reset-release wait of `cortexm_prepare` (adiv5.c lines 434-442):
read DHCSR each round; stop when `S_RESET_ST` clears or the timeout
expires. -/
def cortexm_prepare_reset_wait (ap : ADIv5_AP) (dhcsrAfter : Nat → Nat)
    (expired : Nat → Bool) : Nat → Nat → List DpOp
  | 0, _n => []
  | fuel + 1, n =>
    let ops := (firmware_mem_read (fun _ => dhcsrAfter n) ap CORTEXM_DHCSR
      4).1
    if dhcsrAfter n &&& CORTEXM_DHCSR_S_RESET_ST = 0 then ops
    else if expired n then ops
    else ops ++ cortexm_prepare_reset_wait ap dhcsrAfter expired fuel (n + 1)

/-- `cortexm_prepare` (adiv5.c lines 417-443) as a DP transcript: the
initial-halt attempt; on success the DEMCR read, the
`TRCENA|VC_HARDERR|VC_CORERESET` DEMCR write, the nRST release and the
reset-release wait (the failure path's debug print is compiled out on this
platform). -/
def cortexm_prepare_ops (henv : HaltEnv) (ap : ADIv5_AP) (mindp can : Bool)
    (haltFuel : Nat) (dhcsrAfter : Nat → Nat) (expired : Nat → Bool)
    (prepFuel : Nat) : List DpOp :=
  let h := cortexm_initial_halt henv ap mindp can haltFuel
  match h.1 with
  | none => h.2
  | some dhcsr =>
    if dhcsr = 0 then h.2
    else
      h.2 ++ (firmware_mem_read (fun _ => 0) ap CORTEXM_DEMCR 4).1 ++
        adiv5_mem_write
          (fun j => ((CORTEXM_DEMCR_TRCENA ||| CORTEXM_DEMCR_VC_HARDERR |||
            CORTEXM_DEMCR_VC_CORERESET) >>> (8 * j)) &&& 0xFF) ap
          CORTEXM_DEMCR 4 ++
        DpOp.nrstSet false ::
          cortexm_prepare_reset_wait ap dhcsrAfter expired prepFuel 0

/-- Oracles for one `adiv5_dp_init` run: the DPIDR read and its exception
guard, the sequence of CTRL/STAT read values with the power-up and reset
timeout checks and loop fuels, the AP registers of the probe loop, the
per-AP halt and reset-release oracles of `cortexm_prepare`, the per-AP
walker memories, and the tagged engine-call lists of the external probe
routines (`ext`, consumed in call order), the rescue path and the final
halt-resume sweep. -/
structure DpInitEnv where
  dpidrFault : Bool
  dpidr : Nat
  ctrlstatFault : Bool
  ctrlstat : Nat → Nat
  pwrExpired : Nat → Bool
  rstExpired : Nat → Bool
  pwrFuel : Nat
  rstFuel : Nat
  scan : EnumEnv
  halt : Nat → HaltEnv
  haltFuel : Nat
  dhcsrAfter : Nat → Nat → Nat
  prepExpired : Nat → Nat → Bool
  prepFuel : Nat
  walk : Nat → ProbeEnv
  walkFuel : Nat
  ext : Nat → List (Nat × EngineCall)
  rescue : List (Nat × EngineCall)
  sweep : List (Nat × EngineCall)

/-- The power-up acknowledge poll of `adiv5_dp_init` (adiv5.c lines
797-809): read CTRL/STAT; stop when both ACK bits are set; on expiry free
the DP and fail.  Returns the ops, the exit (`some true` acked, `some
false` expired, `none` still polling), the next read index and the last
value read. -/
def adiv5_dp_powerup_loop (env : DpInitEnv) :
    Nat → Nat → List DpOp × Option Bool × Nat × Nat
  | 0, n => ([], none, n, 0)
  | fuel + 1, n =>
    let v := env.ctrlstat n
    if v &&& (ADIV5_DP_CTRLSTAT_CSYSPWRUPACK |||
        ADIV5_DP_CTRLSTAT_CDBGPWRUPACK) =
        ADIV5_DP_CTRLSTAT_CSYSPWRUPACK ||| ADIV5_DP_CTRLSTAT_CDBGPWRUPACK
    then ([DpOp.dpRead ADIV5_DP_CTRLSTAT], some true, n + 1, v)
    else if env.pwrExpired n then
      ([DpOp.dpRead ADIV5_DP_CTRLSTAT], some false, n + 1, v)
    else
      let r := adiv5_dp_powerup_loop env fuel (n + 1)
      (DpOp.dpRead ADIV5_DP_CTRLSTAT :: r.1, r.2.1, r.2.2.1, r.2.2.2)

/-- The debug-reset acknowledge wait of `adiv5_dp_init` (adiv5.c lines
817-829): delay 20 ms then read CTRL/STAT; stop on `CDBGRSTACK` or
(non-fatally) on expiry. -/
def adiv5_dp_reset_wait (env : DpInitEnv) :
    Nat → Nat → List DpOp × Nat
  | 0, n => ([], n)
  | fuel + 1, n =>
    let ops := [DpOp.delayMs 20, DpOp.dpRead ADIV5_DP_CTRLSTAT]
    if env.ctrlstat n &&& ADIV5_DP_CTRLSTAT_CDBGRSTACK ≠ 0 then (ops, n + 1)
    else if env.rstExpired n then (ops, n + 1)
    else
      let r := adiv5_dp_reset_wait env fuel (n + 1)
      (ops ++ r.1, r.2)

/-- The AP probe loop of `adiv5_dp_init` (adiv5.c lines 837-883) as a DP
transcript: per index the `adiv5_new_ap` register reads; for a valid,
non-duplicate AP the three family probes, `cortexm_prepare` for an AHB AP0,
and the compiled ROM-table walk.  The Boolean result is whether the loop ran
to its `for` guard (the early `return`s skip the final halt-resume
sweep). -/
def adiv5_dp_init_scan (env : DpInitEnv) (mindp can : Bool) :
    Nat → Nat → Nat → Nat → Nat → List DpOp × Bool
  | 0, _i, _invalid, _lastBase, _c => ([], true)
  | rem + 1, i, invalid, lastBase, c =>
    if invalid < 8 then
      let apOps := adiv5_new_ap_ops env.scan i
      match adiv5_new_ap env.scan i with
      | none =>
        if invalid + 1 = 8 then (apOps, false)
        else
          let r := adiv5_dp_init_scan env mindp can rem (i + 1) (invalid + 1)
            lastBase c
          (apOps ++ r.1, r.2)
      | some ap =>
        if ap.base = lastBase then (apOps, false)
        else
          let famOps := compileTaggedCalls (env.ext c) ++
            compileTaggedCalls (env.ext (c + 1)) ++
            compileTaggedCalls (env.ext (c + 2))
          let prepOps := if ap.apsel = 0 ∧ ap.idr &&& 0xf = ARM_AP_TYPE_AHB
            then cortexm_prepare_ops (env.halt i) ap mindp can env.haltFuel
              (env.dhcsrAfter i) (env.prepExpired i) env.prepFuel
            else []
          let w := adiv5_component_probe (env.walk i) env.walkFuel ap.base 0
            0 0
          let wr := compilePEvents env.ext ap w.1 (c + 3)
          let r := adiv5_dp_init_scan env mindp can rem (i + 1) invalid
            ap.base wr.2
          (apOps ++ famOps ++ prepOps ++ wr.1 ++ r.1, r.2)
    else ([], true)

/-- `adiv5_dp_init` (adiv5.c lines 684-882) as a DP transcript: the guarded
DPIDR read, the DPIDR decode, the v2+ TARGETID block on SELECT bank 2, the
Raspberry rescue path, the guarded CTRL/STAT read with its abort retry, the
power-up request write and acknowledge poll, the debug-reset pulse and
wait, the AP probe loop, and the final halt-resume sweep when the loop ran
to completion and `connect_assert_nrst` is clear. -/
def adiv5_dp_init (env : DpInitEnv) (idcode : Nat) (can : Bool) :
    List DpOp :=
  let dpidrOps := if idcode ≠ JTAG_IDCODE_ARM_DPv0 then
      [DpOp.dpRead ADIV5_DP_DPIDR]
    else []
  if idcode ≠ JTAG_IDCODE_ARM_DPv0 ∧ env.dpidrFault then dpidrOps
  else
    let dpidr := if idcode ≠ JTAG_IDCODE_ARM_DPv0 then env.dpidr else 0
    let d := adiv5_dpidr_decode dpidr
    let targetidOps := if 2 ≤ d.version then
        [DpOp.dpWrite ADIV5_DP_SELECT 2, DpOp.dpRead ADIV5_DP_TARGETID,
         DpOp.dpWrite ADIV5_DP_SELECT 0]
      else []
    if d.designer_code = JEP106_MANUFACTURER_RASPBERRY ∧ d.partno = 2 then
      dpidrOps ++ targetidOps ++ compileTaggedCalls env.rescue
    else
      let ctrlstatOps := DpOp.dpRead ADIV5_DP_CTRLSTAT ::
        (if env.ctrlstatFault then
          [DpOp.abortWrite ADIV5_DP_ABORT_DAPABORT,
           DpOp.dpRead ADIV5_DP_CTRLSTAT]
         else [])
      let n0 := if env.ctrlstatFault then 2 else 1
      let csReq := env.ctrlstat (n0 - 1) |||
        ADIV5_DP_CTRLSTAT_CSYSPWRUPREQ ||| ADIV5_DP_CTRLSTAT_CDBGPWRUPREQ
      let p := adiv5_dp_powerup_loop env env.pwrFuel n0
      let head := dpidrOps ++ targetidOps ++ ctrlstatOps ++
        [DpOp.dpWrite ADIV5_DP_CTRLSTAT csReq] ++ p.1
      match p.2.1 with
      | none => head
      | some false => head
      | some true =>
        let cs2 := p.2.2.2 ||| ADIV5_DP_CTRLSTAT_CDBGRSTREQ
        let cs3 := cs2 &&& compl32 ADIV5_DP_CTRLSTAT_CDBGRSTREQ
        let rst := adiv5_dp_reset_wait env env.rstFuel p.2.2.1
        let scan := adiv5_dp_init_scan env d.mindp can 256 0 0 0 0
        let sweepOps := if scan.2 then
            (if can then [] else compileTaggedCalls env.sweep)
          else []
        head ++ [DpOp.dpWrite ADIV5_DP_CTRLSTAT cs2,
            DpOp.dpWrite ADIV5_DP_CTRLSTAT cs3] ++ rst.1 ++ scan.1 ++
          sweepOps

/-- Compiled walker traffic is SELECT-bank safe. -/
theorem compilePEvents_select_safe (ext : Nat → List (Nat × EngineCall))
    (ap : ADIv5_AP) :
    ∀ es c, ((compilePEvents ext ap es c).1.all dp_op_select_safe) = true := by
  intro es
  induction es with
  | nil => intro c; rfl
  | cons e es ih =>
    intro c
    cases e <;>
      simp [compilePEvents, List.all_append, firmware_mem_read_select_safe,
        compileTaggedCalls_select_safe, ih]

/-- The `adiv5_new_ap` register reads are SELECT-bank safe. -/
theorem adiv5_new_ap_ops_select_safe (env : EnumEnv) (apsel : Nat) :
    (adiv5_new_ap_ops env apsel).all dp_op_select_safe = true := by
  simp only [adiv5_new_ap_ops]
  split <;> simp [List.all_append, firmware_ap_read_select_safe]

/-- The reset-release wait of `cortexm_prepare` is SELECT-bank safe. -/
theorem cortexm_prepare_reset_wait_select_safe (ap : ADIv5_AP)
    (dhcsrAfter : Nat → Nat) (expired : Nat → Bool) :
    ∀ fuel n, ((cortexm_prepare_reset_wait ap dhcsrAfter expired fuel n).all
      dp_op_select_safe) = true := by
  intro fuel
  induction fuel with
  | zero => intro n; rfl
  | succ fuel ih =>
    intro n
    simp only [cortexm_prepare_reset_wait]
    repeat' split
    all_goals simp [List.all_append, firmware_mem_read_select_safe, ih]

/-- `cortexm_prepare` is SELECT-bank safe. -/
theorem cortexm_prepare_ops_select_safe (henv : HaltEnv) (ap : ADIv5_AP)
    (mindp can : Bool) (haltFuel : Nat) (dhcsrAfter : Nat → Nat)
    (expired : Nat → Bool) (prepFuel : Nat) :
    ((cortexm_prepare_ops henv ap mindp can haltFuel dhcsrAfter expired
      prepFuel).all dp_op_select_safe) = true := by
  simp only [cortexm_prepare_ops]
  split
  · exact cortexm_initial_halt_select_safe henv ap mindp can haltFuel
  · split
    · exact cortexm_initial_halt_select_safe henv ap mindp can haltFuel
    · simp [List.all_append, cortexm_initial_halt_select_safe,
        firmware_mem_read_select_safe, adiv5_mem_write_select_safe,
        cortexm_prepare_reset_wait_select_safe, dp_op_select_safe]

/-- The power-up acknowledge poll is SELECT-bank safe. -/
theorem adiv5_dp_powerup_loop_select_safe (env : DpInitEnv) :
    ∀ fuel n, ((adiv5_dp_powerup_loop env fuel n).1.all dp_op_select_safe)
      = true := by
  intro fuel
  induction fuel with
  | zero => intro n; rfl
  | succ fuel ih =>
    intro n
    simp only [adiv5_dp_powerup_loop]
    repeat' split
    all_goals
      simp [dp_op_select_safe, ADIV5_DP_CTRLSTAT, ADIV5_DP_SELECT, ih]

/-- The debug-reset acknowledge wait is SELECT-bank safe. -/
theorem adiv5_dp_reset_wait_select_safe (env : DpInitEnv) :
    ∀ fuel n, ((adiv5_dp_reset_wait env fuel n).1.all dp_op_select_safe)
      = true := by
  intro fuel
  induction fuel with
  | zero => intro n; rfl
  | succ fuel ih =>
    intro n
    simp only [adiv5_dp_reset_wait]
    repeat' split
    all_goals
      simp [dp_op_select_safe, ADIV5_DP_CTRLSTAT, ADIV5_DP_SELECT, ih]

/-- The AP probe loop is SELECT-bank safe. -/
theorem adiv5_dp_init_scan_select_safe (env : DpInitEnv) (mindp can : Bool) :
    ∀ rem i invalid lastBase c,
      ((adiv5_dp_init_scan env mindp can rem i invalid lastBase c).1.all
        dp_op_select_safe) = true := by
  intro rem
  induction rem with
  | zero => intro i invalid lastBase c; rfl
  | succ rem ih =>
    intro i invalid lastBase c
    simp only [adiv5_dp_init_scan]
    repeat' split
    all_goals
      simp [List.all_append, adiv5_new_ap_ops_select_safe,
        compileTaggedCalls_select_safe, cortexm_prepare_ops_select_safe,
        compilePEvents_select_safe, ih]

/-- When the DPIDR phase does not fault, the init transcript is the DPIDR
read, then (on v2+) the TARGETID block, then a SELECT-bank-safe
remainder. -/
theorem adiv5_dp_init_decomposition (env : DpInitEnv) (idcode : Nat)
    (can : Bool)
    (hok : ¬(idcode ≠ JTAG_IDCODE_ARM_DPv0 ∧ env.dpidrFault = true)) :
    ∃ rest,
      adiv5_dp_init env idcode can =
        (if idcode ≠ JTAG_IDCODE_ARM_DPv0 then [DpOp.dpRead ADIV5_DP_DPIDR]
         else []) ++
        (if 2 ≤ (adiv5_dpidr_decode (if idcode ≠ JTAG_IDCODE_ARM_DPv0 then
              env.dpidr else 0)).version then
          [DpOp.dpWrite ADIV5_DP_SELECT 2, DpOp.dpRead ADIV5_DP_TARGETID,
           DpOp.dpWrite ADIV5_DP_SELECT 0]
         else []) ++ rest ∧
      rest.all dp_op_select_safe = true := by
  simp only [adiv5_dp_init]
  rw [if_neg hok]
  by_cases hr : (adiv5_dpidr_decode (if idcode ≠ JTAG_IDCODE_ARM_DPv0 then
      env.dpidr else 0)).designer_code = JEP106_MANUFACTURER_RASPBERRY ∧
      (adiv5_dpidr_decode (if idcode ≠ JTAG_IDCODE_ARM_DPv0 then
        env.dpidr else 0)).partno = 2
  · rw [if_pos hr]
    refine ⟨compileTaggedCalls env.rescue, ?_, compileTaggedCalls_select_safe _⟩
    simp [List.append_assoc]
  · rw [if_neg hr]
    rcases hp : (adiv5_dp_powerup_loop env env.pwrFuel
        (if env.ctrlstatFault then 2 else 1)).2.1 with _ | b
    · dsimp only
      simp only [List.append_assoc, List.cons_append]
      refine ⟨_, rfl, ?_⟩
      repeat' split
      all_goals
        simp [List.all_append, dp_op_select_safe, ADIV5_DP_CTRLSTAT,
          ADIV5_DP_SELECT, adiv5_dp_powerup_loop_select_safe]
    · cases b with
      | false =>
        dsimp only
        simp only [List.append_assoc, List.cons_append]
        refine ⟨_, rfl, ?_⟩
        repeat' split
        all_goals
          simp [List.all_append, dp_op_select_safe, ADIV5_DP_CTRLSTAT,
            ADIV5_DP_SELECT, adiv5_dp_powerup_loop_select_safe]
      | true =>
        dsimp only
        simp only [List.append_assoc, List.cons_append]
        refine ⟨_, rfl, ?_⟩
        repeat' split
        all_goals
          simp [List.all_append, dp_op_select_safe, ADIV5_DP_CTRLSTAT,
            ADIV5_DP_SELECT, adiv5_dp_powerup_loop_select_safe,
            adiv5_dp_reset_wait_select_safe, adiv5_dp_init_scan_select_safe,
            compileTaggedCalls_select_safe]

/-- C8: for every DP of version 2 or higher (DPIDR read successfully,
version field ≥ 2), initialisation writes SELECT to bank 2, reads TARGETID,
and writes SELECT back to bank 0 immediately — these are the three
transactions directly following the DPIDR read — and every DP or AP
register access after them leaves the SELECT DP-bank nibble at zero.  For a
DP of version below 2, no SELECT write anywhere in the transcript selects a
nonzero DP bank, in particular bank 2 is never selected. -/
theorem C8_targetid_select_banking (env : DpInitEnv) (idcode : Nat)
    (can : Bool) :
    (idcode ≠ JTAG_IDCODE_ARM_DPv0 → env.dpidrFault = false →
      2 ≤ (adiv5_dpidr_decode env.dpidr).version →
      ∃ rest, adiv5_dp_init env idcode can =
        DpOp.dpRead ADIV5_DP_DPIDR :: DpOp.dpWrite ADIV5_DP_SELECT 2 ::
          DpOp.dpRead ADIV5_DP_TARGETID :: DpOp.dpWrite ADIV5_DP_SELECT 0 ::
          rest ∧
        rest.all dp_op_select_safe = true) ∧
    ((adiv5_dpidr_decode (if idcode ≠ JTAG_IDCODE_ARM_DPv0 then env.dpidr
        else 0)).version < 2 →
      ∀ v, v &&& 0xF ≠ 0 →
        DpOp.dpWrite ADIV5_DP_SELECT v ∉ adiv5_dp_init env idcode can ∧
        DpOp.lowWrite ADIV5_DP_SELECT v ∉ adiv5_dp_init env idcode can) := by
  constructor
  · intro hid hflt hv
    obtain ⟨rest, heq, hsafe⟩ := adiv5_dp_init_decomposition env idcode can
      (by simp [hflt])
    simp only [if_pos hid] at heq
    rw [if_pos hv] at heq
    exact ⟨rest, by simpa using heq, hsafe⟩
  · intro hv v hvb
    have hall : (adiv5_dp_init env idcode can).all dp_op_select_safe
        = true := by
      by_cases hflt : idcode ≠ JTAG_IDCODE_ARM_DPv0 ∧ env.dpidrFault = true
      · simp only [adiv5_dp_init, if_pos hflt, if_pos hflt.1]
        rfl
      · obtain ⟨rest, heq, hsafe⟩ := adiv5_dp_init_decomposition env idcode
          can hflt
        rw [heq, if_neg (by omega :
          ¬(2 ≤ (adiv5_dpidr_decode (if idcode ≠ JTAG_IDCODE_ARM_DPv0 then
            env.dpidr else 0)).version))]
        simp only [List.append_nil, List.all_append, Bool.and_eq_true]
        refine ⟨?_, hsafe⟩
        split <;> simp [dp_op_select_safe]
    constructor
    · intro hmem
      have hs := List.all_eq_true.mp hall _ hmem
      simp [dp_op_select_safe] at hs
      exact hvb hs
    · intro hmem
      have hs := List.all_eq_true.mp hall _ hmem
      simp [dp_op_select_safe] at hs
      exact hvb hs

/-- A v2 DPIDR (version 2, designer ARM, part 0, bit 0 set) with an
immediately-acknowledged power-up and reset and every AP invalid: a minimal
complete `adiv5_dp_init` run. -/
def c8TestEnv : DpInitEnv :=
  { dpidrFault := false
    dpidr := 0x2477
    ctrlstatFault := false
    ctrlstat := fun _ => 0xF8000000
    pwrExpired := fun _ => false
    rstExpired := fun _ => false
    pwrFuel := 4
    rstFuel := 4
    scan := ⟨fun _ => ⟨0, 0xffffffff, 0⟩, fun _ => true⟩
    halt := fun _ => ⟨fun _ => 0, fun _ => true, fun _ => 0, 0, 0⟩
    haltFuel := 1
    dhcsrAfter := fun _ _ => 0
    prepExpired := fun _ _ => false
    prepFuel := 1
    walk := fun _ => ⟨fun _ => 0, fun _ => false⟩
    walkFuel := 1
    ext := fun _ => []
    rescue := []
    sweep := [] }

/-- Witness for C8: on `c8TestEnv` (DPIDR `0x2477`, version 2) the init
transcript opens with the DPIDR read followed immediately by the bank-2
TARGETID block, and its remainder is SELECT-bank safe. -/
theorem C8_witness :
    ∃ rest, adiv5_dp_init c8TestEnv 0x01234567 false =
      DpOp.dpRead ADIV5_DP_DPIDR :: DpOp.dpWrite ADIV5_DP_SELECT 2 ::
        DpOp.dpRead ADIV5_DP_TARGETID :: DpOp.dpWrite ADIV5_DP_SELECT 0 ::
        rest ∧
      rest.all dp_op_select_safe = true :=
  (C8_targetid_select_banking c8TestEnv 0x01234567 false).1 (by decide) rfl
    (by decide)

end BlackMagic
